import Mathlib

/-!
Formal model of the trust-and-audit subsystem of the Alchimista repository:
canonical JSON hashing/signing, artifact verification, tenant authorization,
decision-ledger ingest, and the retention / legal-hold enforcement engine.

Each definition is a shallow embedding of the corresponding Python function in
`services/ingestion_api_service/main.py` or `services/shared/auth.py`.
Machine integers are modelled as `Nat`/`Int` with explicit `% 2 ^ 32` where
32-bit overflow matters; timestamps are modelled as integer seconds; JSON
numbers are modelled as integers (the payloads relevant to the verified
properties contain no fractional numbers).
-/

/-- JSON values, as produced by `json.loads` / consumed by `json.dumps`.
Objects keep their insertion order, exactly like Python dicts. -/
inductive Json where
  | null : Json
  | bool (b : Bool) : Json
  | num (n : Int) : Json
  | str (s : String) : Json
  | arr (items : List Json) : Json
  | obj (fields : List (String × Json)) : Json

/-- `dict.get(k)`: first binding of `k`, if any (dict keys are unique). -/
def dictGet (fields : List (String × Json)) (k : String) : Option Json :=
  match fields.find? (fun p => p.1 = k) with
  | some p => some p.2
  | none => none

/-- Python truthiness of a JSON-decoded value. -/
def jsonTruthy : Json → Bool
  | .null => false
  | .bool b => b
  | .num n => n ≠ 0
  | .str s => s ≠ ""
  | .arr items => ¬items.isEmpty
  | .obj fields => ¬fields.isEmpty

/-- Characters stripped by Python `str.strip()`. -/
def isPySpace (c : Char) : Bool :=
  c = ' ' || c = '\t' || c = '\n' || c = '\r' || c = '\x0b' || c = '\x0c'

/-- Python `str.strip()`. -/
def pyStrip (s : String) : String :=
  ⟨((s.data.dropWhile isPySpace).reverse.dropWhile isPySpace).reverse⟩

/-- Python `str.lower()` (ASCII, which is all the code compares). -/
def pyLower (s : String) : String := ⟨s.data.map Char.toLower⟩

/-- Lowercase hexadecimal digit. -/
def hexDigit (n : Nat) : Char :=
  if n < 10 then Char.ofNat (48 + n) else Char.ofNat (87 + n % 16)

/-- Four lowercase hex digits, as in Python's `\uXXXX` escapes. -/
def hex4 (n : Nat) : List Char :=
  [hexDigit (n / 4096 % 16), hexDigit (n / 256 % 16), hexDigit (n / 16 % 16), hexDigit (n % 16)]

/-- `json.dumps` escaping of a single character with `ensure_ascii=True`. -/
def jsonEscapeChar (c : Char) : List Char :=
  if c = '"' then ['\\', '"']
  else if c = '\\' then ['\\', '\\']
  else if c = '\n' then ['\\', 'n']
  else if c = '\t' then ['\\', 't']
  else if c = '\r' then ['\\', 'r']
  else if c = '\x08' then ['\\', 'b']
  else if c = '\x0c' then ['\\', 'f']
  else if c.toNat < 0x20 then '\\' :: 'u' :: hex4 c.toNat
  else if c.toNat < 0x7f then [c]
  else if c.toNat < 0x10000 then '\\' :: 'u' :: hex4 c.toNat
  else
    let v := c.toNat - 0x10000
    ('\\' :: 'u' :: hex4 (0xd800 + v / 1024)) ++ ('\\' :: 'u' :: hex4 (0xdc00 + v % 1024))

/-- `json.dumps` rendering of a string literal (`ensure_ascii=True`). -/
def jsonQuote (s : String) : String :=
  ⟨'"' :: s.data.flatMap jsonEscapeChar ++ ['"']⟩

/-- Key comparison used to model `sort_keys=True` on rendered fields. -/
def keyLE (a b : String × String) : Prop := a.1 ≤ b.1

instance : DecidableRel keyLE := fun a b => inferInstanceAs (Decidable (a.1 ≤ b.1))

instance : IsTotal (String × String) keyLE := ⟨fun a b => le_total a.1 b.1⟩

instance : IsTrans (String × String) keyLE := ⟨fun _ _ _ h h' => le_trans h h'⟩

/-- `sort_keys=True`: rendered object fields sorted (stably) by key.  With
distinct keys — always true of a Python dict — any correct sort produces this
list, so sorting before or after rendering the values is indistinguishable. -/
def sortRendered (fields : List (String × String)) : List (String × String) :=
  List.insertionSort keyLE fields

mutual

/-- `json.dumps(payload, ensure_ascii=True, separators=(",", ":"), sort_keys=True)`.
Object fields are rendered and then sorted by key; since the sort compares keys
only and dict keys are distinct, the output is byte-identical to sorting the
items first as `json.dumps` does. -/
def serializeJson : Json → String
  | .null => "null"
  | .bool true => "true"
  | .bool false => "false"
  | .num n => toString n
  | .str s => jsonQuote s
  | .arr items => "[" ++ String.intercalate "," (serializeItems items) ++ "]"
  | .obj fields =>
      "\x7b" ++ String.intercalate ","
        ((sortRendered (renderFields fields)).map (fun p => jsonQuote p.1 ++ ":" ++ p.2)) ++ "\x7d"

/-- Serialization of each array element, in order. -/
def serializeItems : List Json → List String
  | [] => []
  | x :: xs => serializeJson x :: serializeItems xs

/-- Each object field as `(key, serialized value)`, in insertion order. -/
def renderFields : List (String × Json) → List (String × String)
  | [] => []
  | (k, v) :: fs => (k, serializeJson v) :: renderFields fs

end

/-- UTF-8 encoding of one character (code points, standard UTF-8). -/
def utf8Char (c : Char) : List Nat :=
  let n := c.toNat
  if n < 0x80 then [n]
  else if n < 0x800 then [0xc0 + n / 64, 0x80 + n % 64]
  else if n < 0x10000 then [0xe0 + n / 4096, 0x80 + n / 64 % 64, 0x80 + n % 64]
  else [0xf0 + n / 262144, 0x80 + n / 4096 % 64, 0x80 + n / 64 % 64, 0x80 + n % 64]

/-- `s.encode("utf-8")` as a byte list. -/
def strBytes (s : String) : List Nat := s.data.flatMap utf8Char

/-- 32-bit truncation. -/
def w32 (n : Nat) : Nat := n % 4294967296

/-- 32-bit right rotation. -/
def rotr32 (k w : Nat) : Nat := w32 ((w >>> k) ||| (w <<< (32 - k)))

/-- SHA-256 round constants (FIPS 180-4), written in decimal. -/
def sha256K : List Nat :=
  [1116352408, 1899447441, 3049323471, 3921009573, 961987163,
   1508970993, 2453635748, 2870763221, 3624381080, 310598401,
   607225278, 1426881987, 1925078388, 2162078206, 2614888103,
   3248222580, 3835390401, 4022224774, 264347078, 604807628,
   770255983, 1249150122, 1555081692, 1996064986, 2554220882,
   2821834349, 2952996808, 3210313671, 3336571891, 3584528711,
   113926993, 338241895, 666307205, 773529912, 1294757372,
   1396182291, 1695183700, 1986661051, 2177026350, 2456956037,
   2730485921, 2820302411, 3259730800, 3345764771, 3516065817,
   3600352804, 4094571909, 275423344, 430227734, 506948616,
   659060556, 883997877, 958139571, 1322822218, 1537002063,
   1747873779, 1955562222, 2024104815, 2227730452, 2361852424,
   2428436474, 2756734187, 3204031479, 3329325298]

/-- SHA-256 working state: eight 32-bit registers. -/
structure Sha256State where
  a : Nat
  b : Nat
  c : Nat
  d : Nat
  e : Nat
  f : Nat
  g : Nat
  h : Nat

/-- SHA-256 initial hash value (FIPS 180-4), written in decimal. -/
def sha256H0 : Sha256State :=
  ⟨1779033703, 3144134277, 1013904242, 2773480762,
   1359893119, 2600822924, 528734635, 1541459225⟩

/-- One SHA-256 compression round. -/
def sha256Round (s : Sha256State) (kw : Nat × Nat) : Sha256State :=
  let s1 := (rotr32 6 s.e) ^^^ (rotr32 11 s.e) ^^^ (rotr32 25 s.e)
  let ch := (s.e &&& s.f) ^^^ ((s.e ^^^ 0xffffffff) &&& s.g)
  let t1 := w32 (s.h + s1 + ch + kw.1 + kw.2)
  let s0 := (rotr32 2 s.a) ^^^ (rotr32 13 s.a) ^^^ (rotr32 22 s.a)
  let mj := (s.a &&& s.b) ^^^ (s.a &&& s.c) ^^^ (s.b &&& s.c)
  let t2 := w32 (s0 + mj)
  ⟨w32 (t1 + t2), s.a, s.b, s.c, w32 (s.d + t1), s.e, s.f, s.g⟩

/-- Big-endian 32-bit words from a 64-byte block. -/
def bytesToWordsBE : List Nat → List Nat
  | b0 :: b1 :: b2 :: b3 :: rest => (b0 * 16777216 + b1 * 65536 + b2 * 256 + b3) :: bytesToWordsBE rest
  | _ => []

/-- One step of the SHA-256 message-schedule extension. -/
def scheduleStep (w : List Nat) : List Nat :=
  let g := fun (i : Nat) => w.getD (w.length - i) 0
  let x15 := g 15
  let x2 := g 2
  let s0 := (rotr32 7 x15) ^^^ (rotr32 18 x15) ^^^ (x15 >>> 3)
  let s1 := (rotr32 17 x2) ^^^ (rotr32 19 x2) ^^^ (x2 >>> 10)
  w ++ [w32 (g 16 + s0 + g 7 + s1)]

/-- Extend the 16-word schedule by `n` further words. -/
def extendSchedule (w : List Nat) : Nat → List Nat
  | 0 => w
  | n + 1 => extendSchedule (scheduleStep w) n

/-- SHA-256 compression of one 64-byte block into the running hash. -/
def sha256Compress (st : Sha256State) (block : List Nat) : Sha256State :=
  let w := extendSchedule (bytesToWordsBE block) 48
  let r := (sha256K.zip w).foldl sha256Round st
  ⟨w32 (st.a + r.a), w32 (st.b + r.b), w32 (st.c + r.c), w32 (st.d + r.d),
   w32 (st.e + r.e), w32 (st.f + r.f), w32 (st.g + r.g), w32 (st.h + r.h)⟩

/-- SHA-256 padding: `0x80`, zeros, and the 64-bit big-endian bit length. -/
def sha256Pad (msg : List Nat) : List Nat :=
  let len := msg.length
  let zeros := (119 - len % 64) % 64
  let bits := len * 8
  msg ++ [0x80] ++ List.replicate zeros 0 ++
    [bits / 72057594037927936 % 256, bits / 281474976710656 % 256,
     bits / 1099511627776 % 256, bits / 4294967296 % 256,
     bits / 16777216 % 256, bits / 65536 % 256, bits / 256 % 256, bits % 256]

/-- Fuel-indexed block splitter; with fuel at least the list length it yields
all 64-byte blocks (structural recursion, so it evaluates in the kernel). -/
def chunks64Go : Nat → List Nat → List (List Nat)
  | _, [] => []
  | 0, _ :: _ => []
  | fuel + 1, x :: xs => (x :: xs).take 64 :: chunks64Go fuel ((x :: xs).drop 64)

/-- Split a byte list into 64-byte blocks. -/
def chunks64 (l : List Nat) : List (List Nat) := chunks64Go l.length l

/-- Big-endian byte serialization of a 32-bit word. -/
def wordBytesBE (w : Nat) : List Nat :=
  [w / 16777216 % 256, w / 65536 % 256, w / 256 % 256, w % 256]

/-- SHA-256 digest (32 bytes) of a byte list. -/
def sha256Bytes (msg : List Nat) : List Nat :=
  let st := (chunks64 (sha256Pad msg)).foldl sha256Compress sha256H0
  wordBytesBE st.a ++ wordBytesBE st.b ++ wordBytesBE st.c ++ wordBytesBE st.d ++
  wordBytesBE st.e ++ wordBytesBE st.f ++ wordBytesBE st.g ++ wordBytesBE st.h

/-- Lowercase hex rendering of a byte list (`hexdigest`). -/
def hexOfBytes (bytes : List Nat) : String :=
  ⟨bytes.flatMap (fun b => [hexDigit (b / 16 % 16), hexDigit (b % 16)])⟩

/-- HMAC-SHA256 digest (32 bytes) with the given key and message bytes. -/
def hmacSha256 (key msg : List Nat) : List Nat :=
  let k0 := if key.length > 64 then sha256Bytes key else key
  let k := k0 ++ List.replicate (64 - k0.length) 0
  let ipad := k.map (fun b => b ^^^ 0x36)
  let opad := k.map (fun b => b ^^^ 0x5c)
  sha256Bytes (opad ++ sha256Bytes (ipad ++ msg))

/-- The standard base64 alphabet. -/
def base64Alphabet : List Char :=
  "ABCDEFGHIJKLMNOPQRSTUVWXYZabcdefghijklmnopqrstuvwxyz0123456789+/".data

/-- Character of a 6-bit value in the base64 alphabet. -/
def base64Char (n : Nat) : Char := base64Alphabet.getD (n % 64) 'A'

/-- Standard base64 encoding of a byte list (`base64.b64encode`). -/
def base64Chars : List Nat → List Char
  | [] => []
  | [b0] => [base64Char (b0 / 4), base64Char (b0 % 4 * 16), '=', '=']
  | [b0, b1] => [base64Char (b0 / 4), base64Char (b0 % 4 * 16 + b1 / 16), base64Char (b1 % 16 * 4), '=']
  | b0 :: b1 :: b2 :: rest =>
      base64Char (b0 / 4) :: base64Char (b0 % 4 * 16 + b1 / 16) ::
      base64Char (b1 % 16 * 4 + b2 / 64) :: base64Char (b2 % 64) :: base64Chars rest

/-- `base64.b64encode(...).decode("ascii")`. -/
def base64Encode (bytes : List Nat) : String := ⟨base64Chars bytes⟩

/-- `_canonical_json_bytes`: the canonical byte serialization of a payload. -/
def canonicalJsonBytes (payload : Json) : List Nat := strBytes (serializeJson payload)

/-- `_sha256_json`: hex-encoded SHA-256 of the canonical serialization. -/
def sha256Json (payload : Json) : String := hexOfBytes (sha256Bytes (canonicalJsonBytes payload))

/-- `_hmac_sha256_b64`: base64 HMAC-SHA256 of the canonical serialization. -/
def hmacSha256B64 (secret : String) (payload : Json) : String :=
  base64Encode (hmacSha256 (strBytes secret) (canonicalJsonBytes payload))

/-! ### Order-independence of the canonical serialization -/

/-- Strict key order on rendered fields. -/
def keyLT (a b : String × String) : Prop := a.1 < b.1

instance : IsAntisymm (String × String) keyLT :=
  ⟨fun _ _ h h' => absurd (lt_trans h h') (lt_irrefl _)⟩

theorem renderFields_eq_map (fields : List (String × Json)) :
    renderFields fields = fields.map (fun p => (p.1, serializeJson p.2)) := by
  induction fields with
  | nil => rfl
  | cons p fs ih => cases p; simp [renderFields, ih]

theorem sortRendered_sorted (l : List (String × String)) :
    (sortRendered l).Sorted keyLE :=
  List.sorted_insertionSort keyLE l

theorem sortRendered_perm (l : List (String × String)) : List.Perm (sortRendered l) l :=
  List.perm_insertionSort keyLE l

theorem sorted_keyLT_of_nodup {l : List (String × String)}
    (hs : l.Sorted keyLE) (hn : (l.map Prod.fst).Nodup) : l.Sorted keyLT := by
  have hne : l.Pairwise (fun a b : String × String => a.1 ≠ b.1) :=
    (List.pairwise_map).mp hn
  exact (hs.and hne).imp (fun h => lt_of_le_of_ne h.1 h.2)

theorem sortRendered_eq_of_perm {l₁ l₂ : List (String × String)}
    (hp : List.Perm l₁ l₂) (hn : (l₁.map Prod.fst).Nodup) : sortRendered l₁ = sortRendered l₂ := by
  have hp' : List.Perm (sortRendered l₁) (sortRendered l₂) :=
    (sortRendered_perm l₁).trans (hp.trans (sortRendered_perm l₂).symm)
  have hn₁ : ((sortRendered l₁).map Prod.fst).Nodup :=
    (((sortRendered_perm l₁).map Prod.fst).nodup_iff).mpr hn
  have hn₂ : ((sortRendered l₂).map Prod.fst).Nodup :=
    ((hp'.map Prod.fst).nodup_iff).mp hn₁
  exact List.eq_of_perm_of_sorted hp'
    (sorted_keyLT_of_nodup (sortRendered_sorted l₁) hn₁)
    (sorted_keyLT_of_nodup (sortRendered_sorted l₂) hn₂)

theorem serializeJson_obj_perm {fs gs : List (String × Json)}
    (hp : List.Perm fs gs) (hn : (fs.map Prod.fst).Nodup) :
    serializeJson (Json.obj fs) = serializeJson (Json.obj gs) := by
  have hperm : List.Perm (renderFields fs) (renderFields gs) := by
    rw [renderFields_eq_map, renderFields_eq_map]
    exact hp.map _
  have hkeys : ((renderFields fs).map Prod.fst).Nodup := by
    rw [renderFields_eq_map]
    simpa [Function.comp] using hn
  simp only [serializeJson]
  rw [sortRendered_eq_of_perm hperm hkeys]

/-- C7: the canonical serialization is order-independent — two payload objects
equal as maps (same key/value bindings, keys possibly in different insertion
orders, keys distinct as in any Python dict) have identical canonical bytes,
hence identical `_sha256_json` digests; and hashing the same payload twice
always yields the same digest. -/
theorem canonical_hash_order_independent (fs gs : List (String × Json))
    (hp : List.Perm fs gs) (hn : (fs.map Prod.fst).Nodup) :
    canonicalJsonBytes (Json.obj fs) = canonicalJsonBytes (Json.obj gs) ∧
    sha256Json (Json.obj fs) = sha256Json (Json.obj gs) ∧
    ∀ payload : Json, sha256Json payload = sha256Json payload := by
  have hser := serializeJson_obj_perm hp hn
  refine ⟨?_, ?_, fun _ => rfl⟩
  · simp [canonicalJsonBytes, hser]
  · simp [sha256Json, canonicalJsonBytes, hser]

/-- Witness for C7 at a concrete pair of reordered payloads. -/
theorem canonical_hash_order_independent_witness :
    List.Perm [("b", Json.num 2), ("a", Json.num 1)] [("a", Json.num 1), ("b", Json.num 2)] ∧
    ([("b", Json.num 2), ("a", Json.num 1)].map Prod.fst).Nodup ∧
    sha256Json (Json.obj [("b", Json.num 2), ("a", Json.num 1)]) =
      sha256Json (Json.obj [("a", Json.num 1), ("b", Json.num 2)]) := by
  have hp : List.Perm [("b", Json.num 2), ("a", Json.num 1)]
      [("a", Json.num 1), ("b", Json.num 2)] :=
    List.Perm.swap ("a", Json.num 1) ("b", Json.num 2) []
  have hn : ([("b", Json.num 2), ("a", Json.num 1)].map Prod.fst).Nodup := by
    simp
  exact ⟨hp, hn, (canonical_hash_order_independent _ _ hp hn).2.1⟩

/-! ### Artifact signing (`export_decisions`) and verification (`verify_decision_artifact`) -/

/-- Python `str()` of a JSON-decoded value.  Containers are rendered via the
canonical serializer; Python's `repr` spells them slightly differently, but
every container rendering starts with a bracket, which is all the verification
logic can observe (it only ever compares the result against `"none"` and
`"hmac-sha256"`). -/
def pyStr : Json → String
  | .null => "None"
  | .bool true => "True"
  | .bool false => "False"
  | .num n => toString n
  | .str s => s
  | .arr items => serializeJson (.arr items)
  | .obj fields => serializeJson (.obj fields)

/-- `str(d.get(k) or default)`. -/
def strOrDefault (v : Option Json) (d : String) : String :=
  match v with
  | none => d
  | some j => if jsonTruthy j then pyStr j else d

/-- `str(d.get(k) or "") or None`. -/
def strOrNone (v : Option Json) : Option String :=
  let s := strOrDefault v ""
  if s = "" then none else some s

/-- The four trailer fields appended by the signing path and stripped by
verification. -/
def signatureFieldNames : List String :=
  ["report_hash_sha256", "signature_alg", "signature_key_id", "signature"]

/-- The four `pop` calls of `verify_decision_artifact` on a dict with unique
keys: remove exactly the trailer fields. -/
def stripSignatureFields (document : List (String × Json)) : List (String × Json) :=
  document.filter (fun p => ¬ p.1 ∈ signatureFieldNames)

/-- The trailer appended by `export_decisions` (also the report/bundle paths):
hash over the payload, then HMAC signature when a signing key is configured. -/
def buildSignedExportDocument (signingKey keyId : String)
    (payload : List (String × Json)) : List (String × Json) :=
  let report_hash := sha256Json (Json.obj payload)
  if signingKey = "" then
    payload ++ [("report_hash_sha256", .str report_hash), ("signature_alg", .str "none"),
                ("signature_key_id", .null), ("signature", .null)]
  else
    payload ++ [("report_hash_sha256", .str report_hash), ("signature_alg", .str "hmac-sha256"),
                ("signature_key_id", if keyId = "" then .null else .str keyId),
                ("signature", .str (hmacSha256B64 signingKey (Json.obj payload)))]

/-- Result of `verify_decision_artifact` (the integrity-relevant fields). -/
structure VerifyResult where
  computed_report_hash_sha256 : String
  stored_report_hash_sha256 : Option String
  hash_match : Bool
  expected_hash_match : Option Bool
  signature_alg : String
  signature_key_id : Option String
  signature_valid : Bool
  expected_signature_key_match : Option Bool
  verified : Bool
  errors : List String

/-- `verify_decision_artifact`, from the decoded JSON document onwards:
strip the trailer, recompute hash and signature over the remainder, compare
(`hmac.compare_digest` is equality on equal-visibility data), and itemize
failure reasons. -/
def verifyDecisionArtifact (signingKey : String) (document : List (String × Json))
    (expectedReportHash : Option String) (expectedSignatureKeyId : Option String) :
    VerifyResult :=
  let stored_hash := dictGet document "report_hash_sha256"
  let signature_alg := strOrDefault (dictGet document "signature_alg") "none"
  let signature_key_id := strOrNone (dictGet document "signature_key_id")
  let signature := strOrNone (dictGet document "signature")
  let unsigned_payload := stripSignatureFields document
  let computed_hash := sha256Json (Json.obj unsigned_payload)
  let hash_match :=
    match stored_hash with
    | some (.str s) => s ≠ "" && computed_hash == s
    | _ => false
  let errors0 : List String := if hash_match then [] else ["hash_mismatch"]
  let expected_hash_match := expectedReportHash.map (fun e => computed_hash == e)
  let errors1 := errors0 ++
    (match expected_hash_match with
     | some false => ["expected_hash_mismatch"]
     | _ => [])
  let sigRes : Bool × List String :=
    if signature_alg = "none" then (signature.isNone, [])
    else if signature_alg = "hmac-sha256" then
      if signingKey = "" then (false, ["signing_key_not_configured"])
      else
        match signature with
        | none => (false, ["missing_signature"])
        | some sig =>
            let expected := hmacSha256B64 signingKey (Json.obj unsigned_payload)
            if sig == expected then (true, []) else (false, ["signature_mismatch"])
    else (false, ["unsupported_signature_alg"])
  let signature_valid := sigRes.1
  let errors2 := errors1 ++ sigRes.2
  let expected_key_match := expectedSignatureKeyId.map (fun e => signature_key_id == some e)
  let errors3 := errors2 ++
    (match expected_key_match with
     | some false => ["signature_key_id_mismatch"]
     | _ => [])
  let verified0 := hash_match && signature_valid
  let verified1 :=
    match expected_hash_match with
    | some b => verified0 && b
    | none => verified0
  let verified2 :=
    match expected_key_match with
    | some b => verified1 && b
    | none => verified1
  { computed_report_hash_sha256 := computed_hash
    stored_report_hash_sha256 :=
      match stored_hash with
      | some (.str s) => some s
      | _ => none
    hash_match := hash_match
    expected_hash_match := expected_hash_match
    signature_alg := signature_alg
    signature_key_id := signature_key_id
    signature_valid := signature_valid
    expected_signature_key_match := expected_key_match
    verified := verified2
    errors := errors3 }

theorem sha256Json_ne_empty (p : Json) : sha256Json p ≠ "" := by
  simp [sha256Json, hexOfBytes, sha256Bytes, wordBytesBE, String.ext_iff]

theorem hmacSha256B64_ne_empty (secret : String) (p : Json) :
    hmacSha256B64 secret p ≠ "" := by
  simp [hmacSha256B64, base64Encode, hmacSha256, sha256Bytes, wordBytesBE, base64Chars,
        String.ext_iff]

theorem stripSignatureFields_append (payload rest : List (String × Json))
    (hdisj : ∀ p ∈ payload, ¬ p.1 ∈ signatureFieldNames) :
    stripSignatureFields (payload ++ rest) = payload ++ stripSignatureFields rest := by
  simp only [stripSignatureFields, List.filter_append, List.append_cancel_right_eq]
  exact List.filter_eq_self.mpr (fun p hp => by simpa using hdisj p hp)

theorem dictGet_append_right (payload rest : List (String × Json)) (k : String)
    (hk : ∀ p ∈ payload, p.1 ≠ k) :
    dictGet (payload ++ rest) k = dictGet rest k := by
  have hnone : payload.find? (fun p => p.1 = k) = none :=
    List.find?_eq_none.mpr (fun p hp => by simpa using hk p hp)
  simp [dictGet, List.find?_append, hnone]

theorem verify_roundtrip_signed (signingKey keyId : String) (payload : List (String × Json))
    (hkey : signingKey ≠ "") (hdisj : ∀ p ∈ payload, ¬ p.1 ∈ signatureFieldNames) :
    stripSignatureFields (buildSignedExportDocument signingKey keyId payload) = payload ∧
    (verifyDecisionArtifact signingKey (buildSignedExportDocument signingKey keyId payload)
        none none).verified = true ∧
    (verifyDecisionArtifact signingKey (buildSignedExportDocument signingKey keyId payload)
        none none).errors = [] := by
  have hdisj' : ∀ k ∈ signatureFieldNames, ∀ p ∈ payload, p.1 ≠ k :=
    fun k hk p hp he => hdisj p hp (he ▸ hk)
  have hne : sha256Json (Json.obj payload) ≠ "" := sha256Json_ne_empty _
  have hsg : hmacSha256B64 signingKey (Json.obj payload) ≠ "" := hmacSha256B64_ne_empty _ _
  have hdoc : buildSignedExportDocument signingKey keyId payload =
      payload ++ [("report_hash_sha256", .str (sha256Json (Json.obj payload))),
                  ("signature_alg", .str "hmac-sha256"),
                  ("signature_key_id", if keyId = "" then .null else .str keyId),
                  ("signature", .str (hmacSha256B64 signingKey (Json.obj payload)))] := by
    simp [buildSignedExportDocument, hkey]
  have hstrip : stripSignatureFields (buildSignedExportDocument signingKey keyId payload)
      = payload := by
    rw [hdoc, stripSignatureFields_append _ _ hdisj]
    by_cases hk : keyId = "" <;>
      simp [hk, stripSignatureFields, signatureFieldNames]
  have hget1 : dictGet (buildSignedExportDocument signingKey keyId payload)
      "report_hash_sha256" = some (.str (sha256Json (Json.obj payload))) := by
    rw [hdoc, dictGet_append_right _ _ _ (hdisj' _ (by simp [signatureFieldNames]))]
    simp [dictGet]
  have hget2 : dictGet (buildSignedExportDocument signingKey keyId payload)
      "signature_alg" = some (.str "hmac-sha256") := by
    rw [hdoc, dictGet_append_right _ _ _ (hdisj' _ (by simp [signatureFieldNames]))]
    simp [dictGet]
  have hget4 : dictGet (buildSignedExportDocument signingKey keyId payload)
      "signature" = some (.str (hmacSha256B64 signingKey (Json.obj payload))) := by
    rw [hdoc, dictGet_append_right _ _ _ (hdisj' _ (by simp [signatureFieldNames]))]
    simp [dictGet]
  refine ⟨hstrip, ?_, ?_⟩ <;>
    simp [verifyDecisionArtifact, hget1, hget2, hget4, hstrip, hne, hsg, hkey,
          strOrDefault, strOrNone, jsonTruthy, pyStr]

/-- Alter the stored `signature` field of a document. -/
def tamperSignature (document : List (String × Json)) (sig2 : String) : List (String × Json) :=
  document.map (fun p => if p.1 = "signature" then (p.1, Json.str sig2) else p)

theorem stripSignatureFields_cons (p : String × Json) (ps : List (String × Json)) :
    stripSignatureFields (p :: ps) =
      if p.1 ∈ signatureFieldNames then stripSignatureFields ps
      else p :: stripSignatureFields ps := by
  by_cases h : p.1 ∈ signatureFieldNames <;> simp [stripSignatureFields, List.filter_cons, h]

theorem dictGet_cons (p : String × Json) (ps : List (String × Json)) (k : String) :
    dictGet (p :: ps) k = if p.1 = k then some p.2 else dictGet ps k := by
  by_cases h : p.1 = k <;> simp [dictGet, List.find?_cons, h]

theorem stripSignatureFields_tamperSignature (d : List (String × Json)) (s : String) :
    stripSignatureFields (tamperSignature d s) = stripSignatureFields d := by
  induction d with
  | nil => rfl
  | cons p ps ih =>
      simp only [tamperSignature, List.map_cons] at ih ⊢
      by_cases hp : p.1 = "signature"
      · rw [if_pos hp]
        rw [stripSignatureFields_cons, stripSignatureFields_cons p]
        have hm : p.1 ∈ signatureFieldNames := by simp [hp, signatureFieldNames]
        simp [hm, ih]
      · rw [if_neg hp, stripSignatureFields_cons, stripSignatureFields_cons p, ih]
  
theorem dictGet_tamperSignature_ne (d : List (String × Json)) (s k : String)
    (hk : k ≠ "signature") : dictGet (tamperSignature d s) k = dictGet d k := by
  induction d with
  | nil => rfl
  | cons p ps ih =>
      simp only [tamperSignature, List.map_cons] at ih ⊢
      by_cases hp : p.1 = "signature"
      · rw [if_pos hp, dictGet_cons, dictGet_cons p]
        have h2 : ("signature" : String) ≠ k := fun he => hk he.symm
        simp [hp, h2, ih]
      · rw [if_neg hp, dictGet_cons, dictGet_cons p, ih]

theorem dictGet_tamperSignature_sig (d : List (String × Json)) (s : String)
    (h : (dictGet d "signature").isSome) :
    dictGet (tamperSignature d s) "signature" = some (Json.str s) := by
  induction d with
  | nil => simp [dictGet] at h
  | cons p ps ih =>
      simp only [tamperSignature, List.map_cons] at ih ⊢
      rw [dictGet_cons] at h
      by_cases hp : p.1 = "signature"
      · rw [if_pos hp, dictGet_cons]
        simp [hp]
      · rw [if_neg hp, dictGet_cons, ih]
        · simp [hp]
        · simpa [hp] using h

theorem verify_hash_mismatch_of_altered (signingKey : String)
    (document : List (String × Json)) (h0 : String)
    (hstored : dictGet document "report_hash_sha256" = some (Json.str h0))
    (hdiff : sha256Json (Json.obj (stripSignatureFields document)) ≠ h0) :
    "hash_mismatch" ∈ (verifyDecisionArtifact signingKey document none none).errors ∧
    (verifyDecisionArtifact signingKey document none none).verified = false := by
  have hbeq : (sha256Json (Json.obj (stripSignatureFields document)) == h0) = false := by
    simp [hdiff]
  constructor <;> simp [verifyDecisionArtifact, hstored, hbeq]

theorem verify_signature_mismatch_of_altered (signingKey keyId : String)
    (payload : List (String × Json)) (sig2 : String)
    (hkey : signingKey ≠ "") (hdisj : ∀ p ∈ payload, ¬ p.1 ∈ signatureFieldNames)
    (hsne : sig2 ≠ "") (hdiff : sig2 ≠ hmacSha256B64 signingKey (Json.obj payload)) :
    (verifyDecisionArtifact signingKey
        (tamperSignature (buildSignedExportDocument signingKey keyId payload) sig2)
        none none).errors = ["signature_mismatch"] ∧
    (verifyDecisionArtifact signingKey
        (tamperSignature (buildSignedExportDocument signingKey keyId payload) sig2)
        none none).verified = false := by
  have hdisj' : ∀ k ∈ signatureFieldNames, ∀ p ∈ payload, p.1 ≠ k :=
    fun k hk p hp he => hdisj p hp (he ▸ hk)
  have hne : sha256Json (Json.obj payload) ≠ "" := sha256Json_ne_empty _
  have hdoc : buildSignedExportDocument signingKey keyId payload =
      payload ++ [("report_hash_sha256", .str (sha256Json (Json.obj payload))),
                  ("signature_alg", .str "hmac-sha256"),
                  ("signature_key_id", if keyId = "" then .null else .str keyId),
                  ("signature", .str (hmacSha256B64 signingKey (Json.obj payload)))] := by
    simp [buildSignedExportDocument, hkey]
  have hstrip : stripSignatureFields
      (tamperSignature (buildSignedExportDocument signingKey keyId payload) sig2) = payload := by
    rw [stripSignatureFields_tamperSignature, hdoc, stripSignatureFields_append _ _ hdisj]
    by_cases hk : keyId = "" <;>
      simp [hk, stripSignatureFields, signatureFieldNames]
  have hget1 : dictGet
      (tamperSignature (buildSignedExportDocument signingKey keyId payload) sig2)
      "report_hash_sha256" = some (.str (sha256Json (Json.obj payload))) := by
    rw [dictGet_tamperSignature_ne _ _ _ (by simp), hdoc,
      dictGet_append_right _ _ _ (hdisj' _ (by simp [signatureFieldNames]))]
    simp [dictGet]
  have hget2 : dictGet
      (tamperSignature (buildSignedExportDocument signingKey keyId payload) sig2)
      "signature_alg" = some (.str "hmac-sha256") := by
    rw [dictGet_tamperSignature_ne _ _ _ (by simp), hdoc,
      dictGet_append_right _ _ _ (hdisj' _ (by simp [signatureFieldNames]))]
    simp [dictGet]
  have hget4 : dictGet
      (tamperSignature (buildSignedExportDocument signingKey keyId payload) sig2)
      "signature" = some (.str sig2) := by
    refine dictGet_tamperSignature_sig _ _ ?_
    rw [hdoc, dictGet_append_right _ _ _ (hdisj' _ (by simp [signatureFieldNames]))]
    simp [dictGet]
  have hbeq : (sig2 == hmacSha256B64 signingKey (Json.obj payload)) = false := by
    simp [hdiff]
  constructor <;>
    simp [verifyDecisionArtifact, hget1, hget2, hget4, hstrip, hne, hsne, hkey, hbeq,
          strOrDefault, strOrNone, jsonTruthy, pyStr]

/-- C2: verification strips exactly the four trailer fields, recomputes the
canonical hash and HMAC signature over the remainder, and compares; a document
produced by the export/sign path with the configured signing key verifies with
`verified = true` and no errors; altering the signed payload (so the recomputed
hash differs from the stored one) yields `verified = false` with
`hash_mismatch` among the itemized errors; altering only the stored signature
yields the distinct reason `signature_mismatch` (and `verified = false`). -/
theorem artifact_verification_roundtrip_and_tamper :
    (∀ signingKey keyId payload, signingKey ≠ "" →
      (∀ p ∈ payload, ¬ p.1 ∈ signatureFieldNames) →
      stripSignatureFields (buildSignedExportDocument signingKey keyId payload) = payload ∧
      (verifyDecisionArtifact signingKey (buildSignedExportDocument signingKey keyId payload)
          none none).verified = true ∧
      (verifyDecisionArtifact signingKey (buildSignedExportDocument signingKey keyId payload)
          none none).errors = []) ∧
    (∀ signingKey document h0,
      dictGet document "report_hash_sha256" = some (Json.str h0) →
      sha256Json (Json.obj (stripSignatureFields document)) ≠ h0 →
      "hash_mismatch" ∈ (verifyDecisionArtifact signingKey document none none).errors ∧
      (verifyDecisionArtifact signingKey document none none).verified = false) ∧
    (∀ signingKey keyId payload sig2, signingKey ≠ "" →
      (∀ p ∈ payload, ¬ p.1 ∈ signatureFieldNames) → sig2 ≠ "" →
      sig2 ≠ hmacSha256B64 signingKey (Json.obj payload) →
      (verifyDecisionArtifact signingKey
          (tamperSignature (buildSignedExportDocument signingKey keyId payload) sig2)
          none none).errors = ["signature_mismatch"] ∧
      (verifyDecisionArtifact signingKey
          (tamperSignature (buildSignedExportDocument signingKey keyId payload) sig2)
          none none).verified = false) :=
  ⟨fun sk kid payload hk hd => verify_roundtrip_signed sk kid payload hk hd,
   fun sk doc h0 hs hd => verify_hash_mismatch_of_altered sk doc h0 hs hd,
   fun sk kid payload s2 hk hd hs hne => verify_signature_mismatch_of_altered sk kid payload s2 hk hd hs hne⟩

set_option maxRecDepth 200000 in
/-- Witness for C2 at a concrete signed payload, a concrete payload alteration
and a concrete signature alteration. -/
theorem artifact_verification_roundtrip_and_tamper_witness :
    ((verifyDecisionArtifact "k0" (buildSignedExportDocument "k0" "kid" [("a", Json.num 1)])
        none none).verified = true ∧
     (verifyDecisionArtifact "k0" (buildSignedExportDocument "k0" "kid" [("a", Json.num 1)])
        none none).errors = []) ∧
    ("hash_mismatch" ∈ (verifyDecisionArtifact "k0"
        [("a", Json.num 2),
         ("report_hash_sha256", Json.str (sha256Json (Json.obj [("a", Json.num 1)])))]
        none none).errors) ∧
    ((verifyDecisionArtifact "k0"
        (tamperSignature (buildSignedExportDocument "k0" "kid" [("a", Json.num 1)]) "XXXX")
        none none).errors = ["signature_mismatch"]) := by
  have hd : ∀ p ∈ [(("a" : String), Json.num 1)], ¬ p.1 ∈ signatureFieldNames := by
    simp [signatureFieldNames]
  have h1 := artifact_verification_roundtrip_and_tamper.1 "k0" "kid" [("a", Json.num 1)]
    (by decide) hd
  have h2 := artifact_verification_roundtrip_and_tamper.2.1 "k0"
    [("a", Json.num 2),
     ("report_hash_sha256", Json.str (sha256Json (Json.obj [("a", Json.num 1)])))]
    (sha256Json (Json.obj [("a", Json.num 1)])) rfl
    (by
      have hs : stripSignatureFields
          [(("a" : String), Json.num 2),
           ("report_hash_sha256", Json.str (sha256Json (Json.obj [("a", Json.num 1)])))]
          = [("a", Json.num 2)] := by
        simp [stripSignatureFields, signatureFieldNames]
      rw [hs]
      decide)
  have h3 := artifact_verification_roundtrip_and_tamper.2.2 "k0" "kid" [("a", Json.num 1)]
    "XXXX" (by decide) hd (by decide) (by decide)
  exact ⟨⟨h1.2.1, h1.2.2⟩, h2.1, h3.1⟩

/-! ### Token verification and tenant authorization (`services/shared/auth.py`) -/

/-- The auth-related fields of `RuntimeConfig`. -/
structure AuthConfig where
  auth_enabled : Bool
  auth_issuer : String
  auth_audiences : List String
  auth_algorithms : List String
  auth_tenant_claims : List String
  auth_require_tenant_claim : Bool
  auth_jwt_shared_secret : String

/-- An `HTTPException`: status code plus detail message. -/
structure HttpError where
  status : Nat
  detail : String
deriving DecidableEq

/-- `_normalize_aud_claim`. -/
def normalizeAudClaim (raw : Option Json) : List String :=
  match raw with
  | some (.str s) => if pyStrip s = "" then [] else [pyStrip s]
  | some (.arr items) =>
      items.foldl
        (fun out item =>
          match item with
          | .str s => if pyStrip s = "" then out else out ++ [pyStrip s]
          | _ => out)
        []
  | _ => []

/-- `_extract_tenant_values`: union of the configured tenant claims, with
Python-set semantics (first-insertion order, no duplicates). -/
def extractTenantValues (claims : List (String × Json)) (claimNames : List String) :
    List String :=
  claimNames.foldl
    (fun values claimName =>
      match dictGet claims claimName with
      | none => values
      | some (.str raw) =>
          let v := pyStrip raw
          if v ≠ "" ∧ ¬ v ∈ values then values ++ [v] else values
      | some (.arr items) =>
          items.foldl
            (fun values item =>
              match item with
              | .str raw =>
                  let v := pyStrip raw
                  if v ≠ "" ∧ ¬ v ∈ values then values ++ [v] else values
              | _ => values)
            values
      | some _ => values)
    []

/-- `_authorize_tenant`: `none` means authorized, `some e` the raised 403. -/
def authorizeTenant (claims : List (String × Json)) (tenant : Option String)
    (config : AuthConfig) : Option HttpError :=
  match tenant with
  | none => none
  | some t =>
    if t = "" then none
    else
      let allowed_tenants := extractTenantValues claims config.auth_tenant_claims
      if allowed_tenants.isEmpty then
        if config.auth_require_tenant_claim then
          some ⟨403, "Forbidden: tenant claim missing"⟩
        else none
      else if "*" ∈ allowed_tenants then none
      else if ¬ t ∈ allowed_tenants then some ⟨403, "Forbidden: tenant mismatch"⟩
      else none

/-- C3: with a required tenant, authorization succeeds when the token's tenant
values contain `"*"`; otherwise, with a non-empty value set, it succeeds iff the
requested tenant is in the set (else 403); with an empty set it fails 403 iff
the require-tenant-claim flag is set. -/
theorem tenant_authorization_characterization (claims : List (String × Json))
    (config : AuthConfig) (t : String) (ht : t ≠ "") :
    (("*" ∈ extractTenantValues claims config.auth_tenant_claims) →
      authorizeTenant claims (some t) config = none) ∧
    (extractTenantValues claims config.auth_tenant_claims ≠ [] →
      ¬ "*" ∈ extractTenantValues claims config.auth_tenant_claims →
      (authorizeTenant claims (some t) config = none ↔
        t ∈ extractTenantValues claims config.auth_tenant_claims)) ∧
    (extractTenantValues claims config.auth_tenant_claims = [] →
      (authorizeTenant claims (some t) config = none ↔
        ¬ config.auth_require_tenant_claim = true)) := by
  refine ⟨?_, ?_, ?_⟩
  · intro hstar
    have hne : ¬ (extractTenantValues claims config.auth_tenant_claims).isEmpty := by
      simp [List.isEmpty_iff]
      intro h
      rw [h] at hstar
      simp at hstar
    simp [authorizeTenant, ht, hne, hstar]
  · intro hne hnstar
    have hne' : ¬ (extractTenantValues claims config.auth_tenant_claims).isEmpty := by
      simpa [List.isEmpty_iff] using hne
    by_cases hmem : t ∈ extractTenantValues claims config.auth_tenant_claims <;>
      simp [authorizeTenant, ht, hne', hnstar, hmem]
  · intro hemp
    have he : (extractTenantValues claims config.auth_tenant_claims).isEmpty := by
      simp [List.isEmpty_iff, hemp]
    by_cases hreq : config.auth_require_tenant_claim <;>
      simp [authorizeTenant, ht, he, hreq]

/-- Witness for C3: a token with tenant claims `tenant="t1"`, `tenants=["t2"]`
authorizes tenant `t1` and is denied tenant `t3`. -/
theorem tenant_authorization_characterization_witness :
    authorizeTenant [("tenant", Json.str "t1"), ("tenants", Json.arr [Json.str "t2"])]
      (some "t1") ⟨true, "", [], ["RS256"], ["tenant", "tenants"], true, ""⟩ = none ∧
    ¬ authorizeTenant [("tenant", Json.str "t1"), ("tenants", Json.arr [Json.str "t2"])]
      (some "t3") ⟨true, "", [], ["RS256"], ["tenant", "tenants"], true, ""⟩ = none := by
  constructor
  · exact ((tenant_authorization_characterization
      [("tenant", Json.str "t1"), ("tenants", Json.arr [Json.str "t2"])]
      ⟨true, "", [], ["RS256"], ["tenant", "tenants"], true, ""⟩ "t1" (by decide)).2.1
      (by decide) (by decide)).mpr (by decide)
  · intro hc
    exact absurd (((tenant_authorization_characterization
      [("tenant", Json.str "t1"), ("tenants", Json.arr [Json.str "t2"])]
      ⟨true, "", [], ["RS256"], ["tenant", "tenants"], true, ""⟩ "t3" (by decide)).2.1
      (by decide) (by decide)).mp hc) (by decide)

/-! ### `_decode_claims` (token verification pipeline after JWT parsing) -/

/-- Python `s.startswith(pre)`. -/
def pyStartsWith (s pre : String) : Bool := List.isPrefixOf pre.data s.data

/-- `_verify_hmac_signature`: `none` means the signature checks out. -/
def verifyHmacSignature (signingInput signature : List Nat) (algorithm secret : String) :
    Option HttpError :=
  if algorithm ≠ "HS256" then
    some ⟨401, "Invalid token: unsupported HMAC algorithm " ++ algorithm⟩
  else if ¬ signature = hmacSha256 (strBytes secret) signingInput then
    some ⟨401, "Invalid token: bad signature"⟩
  else none

/-- Audience part of `_verify_registered_claims`. -/
def verifyAudClaim (claims : List (String × Json)) (config : AuthConfig) : Option HttpError :=
  if config.auth_audiences.isEmpty then none
  else
    let audience_claim := normalizeAudClaim (dictGet claims "aud")
    if audience_claim.isEmpty then some ⟨401, "Invalid token: audience missing"⟩
    else if (audience_claim.filter (fun a => a ∈ config.auth_audiences)).isEmpty then
      some ⟨401, "Invalid token: audience mismatch"⟩
    else none

/-- Issuer part of `_verify_registered_claims`. -/
def verifyIssClaim (claims : List (String × Json)) (config : AuthConfig) : Option HttpError :=
  if config.auth_issuer ≠ "" then
    if strOrDefault (dictGet claims "iss") "" ≠ config.auth_issuer then
      some ⟨401, "Invalid token: issuer mismatch"⟩
    else none
  else none

/-- `_verify_registered_claims` with a 30s skew; `none` means valid. -/
def verifyRegisteredClaims (claims : List (String × Json)) (config : AuthConfig)
    (now : Int) : Option HttpError :=
  match dictGet claims "exp" with
  | some (.num e) =>
      if now > e + 30 then some ⟨401, "Invalid token: expired"⟩
      else
        match dictGet claims "nbf" with
        | some (.num n) =>
            if now + 30 < n then some ⟨401, "Invalid token: not yet valid"⟩
            else
              match dictGet claims "iat" with
              | some (.num i) =>
                  if i > now + 30 then some ⟨401, "Invalid token: issued in future"⟩
                  else
                    match verifyIssClaim claims config with
                    | some err => some err
                    | none => verifyAudClaim claims config
              | _ =>
                  match verifyIssClaim claims config with
                  | some err => some err
                  | none => verifyAudClaim claims config
        | _ =>
            match dictGet claims "iat" with
            | some (.num i) =>
                if i > now + 30 then some ⟨401, "Invalid token: issued in future"⟩
                else
                  match verifyIssClaim claims config with
                  | some err => some err
                  | none => verifyAudClaim claims config
            | _ =>
                match verifyIssClaim claims config with
                | some err => some err
                | none => verifyAudClaim claims config
  | _ => some ⟨401, "Invalid token: missing exp"⟩

/-- `_decode_claims` on an already-parsed JWT (header dict, claims dict, signing
input and signature bytes).  The RS256 network/RSA verification is an external
collaborator, represented by its outcome `rs256Result`; the HS256 path is fully
modelled.  An `Except.error` is a raised `HTTPException`, never a crash. -/
def decodeClaims (header claims : List (String × Json)) (signingInput signature : List Nat)
    (config : AuthConfig) (now : Int) (rs256Result : Option HttpError) :
    Except HttpError (List (String × Json)) :=
  let algorithm := strOrDefault (dictGet header "alg") ""
  let allowed := if config.auth_algorithms.isEmpty then ["RS256"] else config.auth_algorithms
  if ¬ algorithm ∈ allowed then
    .error ⟨401, "Invalid token: algorithm " ++ algorithm ++ " is not allowed"⟩
  else if pyStartsWith algorithm "HS" then
    if config.auth_jwt_shared_secret = "" then
      .error ⟨503, "AUTH_JWT_SHARED_SECRET is required for HMAC tokens"⟩
    else
      match verifyHmacSignature signingInput signature algorithm config.auth_jwt_shared_secret with
      | some err => .error err
      | none =>
          match verifyRegisteredClaims claims config now with
          | some err => .error err
          | none => .ok claims
  else if algorithm = "RS256" then
    match rs256Result with
    | some err => .error err
    | none =>
        match verifyRegisteredClaims claims config now with
        | some err => .error err
        | none => .ok claims
  else .error ⟨401, "Invalid token: unsupported algorithm " ++ algorithm⟩

/-- C8 counterexample: an HS256 token whose algorithm is allowed, with no shared
HMAC secret configured, is rejected with HTTP 503 (service-unavailable), not a
401 authentication error as the claim states. -/
theorem hs256_missing_secret_counterexample :
    decodeClaims [("alg", Json.str "HS256")] [("exp", Json.num 9999999999)] [] []
        ⟨true, "", [], ["HS256"], ["tenant"], true, ""⟩ 0 none =
      .error ⟨503, "AUTH_JWT_SHARED_SECRET is required for HMAC tokens"⟩ ∧
    (503 : Nat) ≠ 401 :=
  ⟨rfl, by decide⟩

/-- C8 (amended): for every parsed token whose header algorithm is HS256 and is
among the allowed algorithms, when no shared HMAC secret is configured, token
verification fails with a service-unavailable error (HTTP 503) — a raised
`HTTPException`, never a crash. -/
theorem hs256_missing_secret_503 (header claims : List (String × Json))
    (signingInput signature : List Nat) (config : AuthConfig) (now : Int)
    (rs256Result : Option HttpError)
    (halg : strOrDefault (dictGet header "alg") "" = "HS256")
    (hallowed : "HS256" ∈
      (if config.auth_algorithms.isEmpty then ["RS256"] else config.auth_algorithms))
    (hsecret : config.auth_jwt_shared_secret = "") :
    decodeClaims header claims signingInput signature config now rs256Result =
      .error ⟨503, "AUTH_JWT_SHARED_SECRET is required for HMAC tokens"⟩ := by
  have hhs : pyStartsWith "HS256" "HS" = true := by decide
  have hallowed' : "HS256" ∈
      (if config.auth_algorithms = [] then ["RS256"] else config.auth_algorithms) := by
    simpa [List.isEmpty_iff] using hallowed
  simp [decodeClaims, halg, hallowed', hsecret, hhs]

/-- Witness for C8 (amended) at a concrete configuration and token header. -/
theorem hs256_missing_secret_503_witness :
    decodeClaims [("alg", Json.str "HS256")] [("exp", Json.num 1234)] [] [1, 2]
        ⟨true, "", [], ["HS256", "RS256"], ["tenant"], false, ""⟩ 77 none =
      .error ⟨503, "AUTH_JWT_SHARED_SECRET is required for HMAC tokens"⟩ :=
  hs256_missing_secret_503 [("alg", Json.str "HS256")] [("exp", Json.num 1234)] [] [1, 2]
    ⟨true, "", [], ["HS256", "RS256"], ["tenant"], false, ""⟩ 77 none
    (by decide) (by decide) rfl

/-! ### Retention enforcement and legal holds -/

/-- A `legal_holds` row. -/
structure LegalHold where
  hold_id : String
  tenant : String
  scope_type : String
  scope_id : String
  reason : String
  case_id : Option String
  regulator_ref : Option String
  created_by : String
  created_at : Int
  released_at : Option Int
deriving DecidableEq

/-- An `audit_artifacts` row (the columns retention enforcement touches). -/
structure AuditArtifact where
  artifact_id : String
  tenant : String
  artifact_type : String
  gs_uri : String
  object_generation : Option Int
  created_at : Int
  metadata : List (String × Json)
  deleted_at : Option Int
  deleted_by : Option String
  deletion_reason : Option String
  delete_job_id : Option String

/-- A `retention_policies` row. -/
structure RetentionPolicyRow where
  tenant : String
  artifact_type : String
  retain_days : Int
  legal_hold_enabled : Bool
  immutable_required : Bool
deriving DecidableEq

/-- A row of `_list_retention_candidates`: artifact columns plus the
LEFT-JOINed policy columns. -/
structure CandidateRow where
  artifact_id : String
  tenant : String
  artifact_type : String
  gs_uri : String
  object_generation : Option Int
  created_at : Int
  metadata : List (String × Json)
  policy_retain_days : Option Int
  policy_legal_hold_enabled : Option Bool
  policy_immutable_required : Option Bool

/-- Python truthiness of an optional SQL string parameter (`if tenant:`). -/
def optTruthy : Option String → Bool
  | none => false
  | some s => s ≠ ""

/-- `_list_legal_holds`: optional tenant filter, active-only filter,
`ORDER BY created_at DESC`. -/
def listLegalHolds (table : List LegalHold) (tenant : Option String) (activeOnly : Bool) :
    List LegalHold :=
  let filtered := table.filter (fun h =>
    (if optTruthy tenant then decide (h.tenant = tenant.getD "") else true) &&
    (if activeOnly then decide (h.released_at = none) else true))
  List.insertionSort (fun a b => b.created_at ≤ a.created_at) filtered

/-- The LEFT JOIN of one artifact with its `(tenant, artifact_type)` policy. -/
def candidateOfArtifact (policies : List RetentionPolicyRow) (a : AuditArtifact) :
    CandidateRow :=
  let p := policies.find? (fun p => p.tenant = a.tenant ∧ p.artifact_type = a.artifact_type)
  { artifact_id := a.artifact_id
    tenant := a.tenant
    artifact_type := a.artifact_type
    gs_uri := a.gs_uri
    object_generation := a.object_generation
    created_at := a.created_at
    metadata := a.metadata
    policy_retain_days := p.map (fun p => p.retain_days)
    policy_legal_hold_enabled := p.map (fun p => p.legal_hold_enabled)
    policy_immutable_required := p.map (fun p => p.immutable_required) }

/-- `_list_retention_candidates`: non-deleted artifacts, optional tenant and
artifact-type filters, `ORDER BY created_at ASC LIMIT limit`, LEFT JOIN with
retention policies. -/
def listRetentionCandidates (artifacts : List AuditArtifact)
    (policies : List RetentionPolicyRow) (tenant artifactType : Option String)
    (limit : Nat) : List CandidateRow :=
  let rows := artifacts.filter (fun a =>
    decide (a.deleted_at = none) &&
    (if optTruthy tenant then decide (a.tenant = tenant.getD "") else true) &&
    (if optTruthy artifactType then decide (a.artifact_type = artifactType.getD "") else true))
  let sorted := List.insertionSort (fun a b : AuditArtifact => a.created_at ≤ b.created_at) rows
  (sorted.map (candidateOfArtifact policies)).take limit

/-- The policy dict of `_extract_retention_policy_from_candidate`. -/
structure RetentionPolicyInfo where
  retain_days : Int
  legal_hold_enabled : Bool
  immutable_required : Bool
deriving DecidableEq

/-- `_extract_retention_policy_from_candidate`: `None` without a policy;
`bool(None)` is `False` for the joined boolean columns. -/
def extractRetentionPolicyFromCandidate (row : CandidateRow) : Option RetentionPolicyInfo :=
  match row.policy_retain_days with
  | none => none
  | some d => some ⟨d, row.policy_legal_hold_enabled.getD false,
                   row.policy_immutable_required.getD false⟩

/-- `str(metadata.get(k) or "").strip()`. -/
def metaStrField (metadata : List (String × Json)) (k : String) : String :=
  pyStrip (strOrDefault (dictGet metadata k) "")

/-- A set comprehension over `metadata.get(k) or []` with Python-set semantics:
the stripped, non-empty stringifications of the items.  A JSON array iterates
its items, a string its characters, an object its keys; other truthy
non-iterables raise `TypeError` in Python and do not occur in artifact
metadata. -/
def metaStrSet (metadata : List (String × Json)) (k : String) : List String :=
  let add := fun (acc : List String) (v : String) =>
    if v ≠ "" ∧ ¬ v ∈ acc then acc ++ [v] else acc
  match dictGet metadata k with
  | some (.arr items) => items.foldl (fun acc item => add acc (pyStrip (pyStr item))) []
  | some (.str s) => s.data.foldl (fun acc c => add acc (pyStrip ⟨[c]⟩)) []
  | some (.obj fields) => fields.foldl (fun acc p => add acc (pyStrip p.1)) []
  | _ => []

/-- The body of the hold loop of `_matching_legal_hold_ids_for_artifact`. -/
def legalHoldMatchStep (artifactTenant artifactId gsUri : String)
    (decision_id case_id : String) (decision_ids context_docs : List String)
    (hold_ids : List String) (hold : LegalHold) : List String :=
  if hold.tenant ≠ artifactTenant then hold_ids
  else
    let scope_type := pyLower (pyStrip hold.scope_type)
    let scope_id := pyStrip hold.scope_id
    if scope_type = "" ∨ scope_id = "" then hold_ids
    else
      let isMatch : Bool :=
        if scope_type = "tenant" then decide (scope_id = artifactTenant ∨ scope_id = "*")
        else if scope_type = "artifact" then decide (scope_id = artifactId ∨ scope_id = gsUri)
        else if scope_type = "decision" then
          decide (scope_id = decision_id ∨ scope_id ∈ decision_ids)
        else if scope_type = "document" then decide (scope_id ∈ context_docs)
        else if scope_type = "case" then decide (scope_id = case_id)
        else false
      if isMatch then hold_ids ++ [hold.hold_id] else hold_ids

/-- `_matching_legal_hold_ids_for_artifact`. -/
def matchingLegalHoldIdsForArtifact (artifactTenant artifactId gsUri : String)
    (metadata : List (String × Json)) (holds : List LegalHold) : List String :=
  holds.foldl
    (legalHoldMatchStep artifactTenant artifactId gsUri
      (metaStrField metadata "decision_id") (metaStrField metadata "case_id")
      (metaStrSet metadata "decision_ids") (metaStrSet metadata "context_docs"))
    []

/-- A `RetentionEnforcementItem`. -/
structure RetentionItem where
  artifact_id : String
  tenant : String
  artifact_type : String
  gs_uri : String
  created_at : Int
  expires_at : Int
  age_days : Int
  action : String
  reason : String
  hold_ids : List String
  error : Option String
deriving DecidableEq

/-- `max(0, int((now - created_at).total_seconds() // 86400))`. -/
def retentionAgeDays (now created_at : Int) : Int := max 0 (Int.fdiv (now - created_at) 86400)

/-- One iteration of the `enforce_retention` candidate loop, producing the
per-item outcome in the code's fixed evaluation order.  `deleteResult` is the
object-store collaborator: `.ok b` is `delete_gs_uri` returning `b`, `.error m`
is a raised exception. -/
def processCandidate (now : Int) (dryRun : Bool)
    (deleteResult : CandidateRow → Except String Bool) (holds : List LegalHold)
    (row : CandidateRow) : RetentionItem :=
  match extractRetentionPolicyFromCandidate row with
  | none =>
      { artifact_id := row.artifact_id, tenant := row.tenant,
        artifact_type := row.artifact_type, gs_uri := row.gs_uri,
        created_at := row.created_at, expires_at := row.created_at,
        age_days := retentionAgeDays now row.created_at,
        action := "SKIP_POLICY_MISSING",
        reason := "No retention policy configured for tenant/artifact_type",
        hold_ids := [], error := none }
  | some policy =>
      let expires_at := row.created_at + policy.retain_days * 86400
      let age_days := retentionAgeDays now row.created_at
      if expires_at > now then
        { artifact_id := row.artifact_id, tenant := row.tenant,
          artifact_type := row.artifact_type, gs_uri := row.gs_uri,
          created_at := row.created_at, expires_at := expires_at, age_days := age_days,
          action := "SKIP_NOT_EXPIRED", reason := "Retention period not expired",
          hold_ids := [], error := none }
      else
        let hold_ids :=
          if policy.legal_hold_enabled then
            matchingLegalHoldIdsForArtifact row.tenant row.artifact_id row.gs_uri
              row.metadata holds
          else []
        if ¬ hold_ids.isEmpty then
          { artifact_id := row.artifact_id, tenant := row.tenant,
            artifact_type := row.artifact_type, gs_uri := row.gs_uri,
            created_at := row.created_at, expires_at := expires_at, age_days := age_days,
            action := "SKIP_LEGAL_HOLD", reason := "Active legal hold protects artifact",
            hold_ids := hold_ids, error := none }
        else if dryRun then
          { artifact_id := row.artifact_id, tenant := row.tenant,
            artifact_type := row.artifact_type, gs_uri := row.gs_uri,
            created_at := row.created_at, expires_at := expires_at, age_days := age_days,
            action := "WOULD_DELETE", reason := "Retention expired and no active legal hold",
            hold_ids := [], error := none }
        else
          match deleteResult row with
          | .ok _ =>
              { artifact_id := row.artifact_id, tenant := row.tenant,
                artifact_type := row.artifact_type, gs_uri := row.gs_uri,
                created_at := row.created_at, expires_at := expires_at, age_days := age_days,
                action := "DELETED", reason := "Retention expired and artifact removed",
                hold_ids := [], error := none }
          | .error msg =>
              { artifact_id := row.artifact_id, tenant := row.tenant,
                artifact_type := row.artifact_type, gs_uri := row.gs_uri,
                created_at := row.created_at, expires_at := expires_at, age_days := age_days,
                action := "DELETE_FAILED", reason := "Retention expired but deletion failed",
                hold_ids := [], error := some msg }

/-- The per-run counters of `enforce_retention`. -/
structure RetentionCounters where
  eligible : Nat
  deleted : Nat
  skipped_not_expired : Nat
  skipped_on_hold : Nat
  skipped_policy_missing : Nat
  failed : Nat
deriving DecidableEq

/-- The counter increments of one loop iteration, read off the item's action
(each branch of the loop appends the item whose action names the counter it
bumped; `eligible` is bumped on every branch past the expiry check). -/
def bumpCounters (c : RetentionCounters) (item : RetentionItem) : RetentionCounters :=
  if item.action = "SKIP_POLICY_MISSING" then
    { c with skipped_policy_missing := c.skipped_policy_missing + 1 }
  else if item.action = "SKIP_NOT_EXPIRED" then
    { c with skipped_not_expired := c.skipped_not_expired + 1 }
  else if item.action = "SKIP_LEGAL_HOLD" then
    { c with eligible := c.eligible + 1, skipped_on_hold := c.skipped_on_hold + 1 }
  else if item.action = "WOULD_DELETE" then
    { c with eligible := c.eligible + 1 }
  else if item.action = "DELETED" then
    { c with eligible := c.eligible + 1, deleted := c.deleted + 1 }
  else
    { c with eligible := c.eligible + 1, failed := c.failed + 1 }

/-- The candidate loop of `enforce_retention`. -/
def enforceLoop (now : Int) (dryRun : Bool)
    (deleteResult : CandidateRow → Except String Bool) (holds : List LegalHold) :
    List CandidateRow → RetentionCounters × List RetentionItem
  | [] => (⟨0, 0, 0, 0, 0, 0⟩, [])
  | row :: rest =>
      let item := processCandidate now dryRun deleteResult holds row
      let r := enforceLoop now dryRun deleteResult holds rest
      (bumpCounters r.1 item, item :: r.2)

/-- A `RetentionEnforcementResponse`. -/
structure RetentionResponse where
  dry_run : Bool
  tenant : Option String
  artifact_type : Option String
  scanned : Nat
  eligible : Nat
  deleted : Nat
  skipped_not_expired : Nat
  skipped_on_hold : Nat
  skipped_policy_missing : Nat
  failed : Nat
  items : List RetentionItem

/-- `enforce_retention`: list candidates and active legal holds, process each
candidate once in order, and return the reconciled counters and items. -/
def enforceRetention (now : Int) (dryRun : Bool) (tenant artifactType : Option String)
    (limit : Nat) (deleteResult : CandidateRow → Except String Bool)
    (artifacts : List AuditArtifact) (policies : List RetentionPolicyRow)
    (holdsTable : List LegalHold) : RetentionResponse :=
  let candidates := listRetentionCandidates artifacts policies tenant artifactType limit
  let holds := listLegalHolds holdsTable tenant true
  let r := enforceLoop now dryRun deleteResult holds candidates
  { dry_run := dryRun, tenant := tenant, artifact_type := artifactType,
    scanned := candidates.length, eligible := r.1.eligible, deleted := r.1.deleted,
    skipped_not_expired := r.1.skipped_not_expired,
    skipped_on_hold := r.1.skipped_on_hold,
    skipped_policy_missing := r.1.skipped_policy_missing,
    failed := r.1.failed, items := r.2 }

theorem processCandidate_action_mem (now : Int) (dryRun : Bool)
    (deleteResult : CandidateRow → Except String Bool) (holds : List LegalHold)
    (row : CandidateRow) :
    (processCandidate now dryRun deleteResult holds row).action ∈
      ["SKIP_POLICY_MISSING", "SKIP_NOT_EXPIRED", "SKIP_LEGAL_HOLD",
       "WOULD_DELETE", "DELETED", "DELETE_FAILED"] := by
  unfold processCandidate
  cases hpol : extractRetentionPolicyFromCandidate row with
  | none => simp
  | some policy =>
      by_cases h1 : row.created_at + policy.retain_days * 86400 > now
      · simp [h1]
      · by_cases h2 : (if policy.legal_hold_enabled then
            matchingLegalHoldIdsForArtifact row.tenant row.artifact_id row.gs_uri
              row.metadata holds else []).isEmpty
        · by_cases h3 : dryRun
          · simp [h1, h2, h3]
          · cases hd : deleteResult row <;> simp [h1, h2, h3, hd]
        · simp [h1, h2]

theorem enforceLoop_spec (now : Int) (dryRun : Bool)
    (deleteResult : CandidateRow → Except String Bool) (holds : List LegalHold)
    (candidates : List CandidateRow) :
    (enforceLoop now dryRun deleteResult holds candidates).2 =
      candidates.map (processCandidate now dryRun deleteResult holds) ∧
    (enforceLoop now dryRun deleteResult holds candidates).1.skipped_policy_missing +
      (enforceLoop now dryRun deleteResult holds candidates).1.skipped_not_expired +
      (enforceLoop now dryRun deleteResult holds candidates).1.skipped_on_hold +
      (enforceLoop now dryRun deleteResult holds candidates).1.deleted +
      (enforceLoop now dryRun deleteResult holds candidates).1.failed +
      (enforceLoop now dryRun deleteResult holds candidates).2.countP
        (fun i => i.action == "WOULD_DELETE") = candidates.length := by
  induction candidates with
  | nil => simp [enforceLoop]
  | cons row rest ih =>
      have hmem := processCandidate_action_mem now dryRun deleteResult holds row
      simp only [List.mem_cons, List.mem_singleton, List.not_mem_nil, or_false] at hmem
      constructor
      · simp [enforceLoop, ih.1]
      · obtain ⟨ih1, ih2⟩ := ih
        rcases hmem with h | h | h | h | h | h <;>
          (try simp [enforceLoop, bumpCounters, h, List.countP_cons]) <;> omega

/-- C6: every scanned candidate yields exactly one per-item outcome, evaluated
in the fixed order of the code, and the counters reconcile: `scanned` equals
the number of items, and equals the sum of the per-outcome counters plus the
number of `WOULD_DELETE` items. -/
theorem retention_counters_reconcile (now : Int) (dryRun : Bool)
    (tenant artifactType : Option String) (limit : Nat)
    (deleteResult : CandidateRow → Except String Bool)
    (artifacts : List AuditArtifact) (policies : List RetentionPolicyRow)
    (holdsTable : List LegalHold) :
    (enforceRetention now dryRun tenant artifactType limit deleteResult artifacts policies
        holdsTable).items.length =
      (enforceRetention now dryRun tenant artifactType limit deleteResult artifacts policies
        holdsTable).scanned ∧
    (enforceRetention now dryRun tenant artifactType limit deleteResult artifacts policies
        holdsTable).scanned =
      (enforceRetention now dryRun tenant artifactType limit deleteResult artifacts policies
        holdsTable).skipped_policy_missing +
      (enforceRetention now dryRun tenant artifactType limit deleteResult artifacts policies
        holdsTable).skipped_not_expired +
      (enforceRetention now dryRun tenant artifactType limit deleteResult artifacts policies
        holdsTable).skipped_on_hold +
      (enforceRetention now dryRun tenant artifactType limit deleteResult artifacts policies
        holdsTable).deleted +
      (enforceRetention now dryRun tenant artifactType limit deleteResult artifacts policies
        holdsTable).failed +
      (enforceRetention now dryRun tenant artifactType limit deleteResult artifacts policies
        holdsTable).items.countP (fun i => i.action == "WOULD_DELETE") ∧
    (enforceRetention now dryRun tenant artifactType limit deleteResult artifacts policies
        holdsTable).items =
      (listRetentionCandidates artifacts policies tenant artifactType limit).map
        (processCandidate now dryRun deleteResult (listLegalHolds holdsTable tenant true)) ∧
    ∀ item ∈ (enforceRetention now dryRun tenant artifactType limit deleteResult artifacts
        policies holdsTable).items,
      item.action ∈ ["SKIP_POLICY_MISSING", "SKIP_NOT_EXPIRED", "SKIP_LEGAL_HOLD",
                     "WOULD_DELETE", "DELETED", "DELETE_FAILED"] := by
  obtain ⟨h1, h2⟩ := enforceLoop_spec now dryRun deleteResult
    (listLegalHolds holdsTable tenant true)
    (listRetentionCandidates artifacts policies tenant artifactType limit)
  refine ⟨?_, ?_, ?_, ?_⟩
  · simp [enforceRetention, h1]
  · simp only [enforceRetention]
    omega
  · simp [enforceRetention, h1]
  · intro item hitem
    simp only [enforceRetention, h1, List.mem_map] at hitem
    obtain ⟨row, _, hrow⟩ := hitem
    exact hrow ▸ processCandidate_action_mem now dryRun deleteResult _ row

theorem legalHoldMatchStep_mono (aT aI gU di ci : String) (dis cds : List String)
    (acc : List String) (hold : LegalHold) (a : String) (ha : a ∈ acc) :
    a ∈ legalHoldMatchStep aT aI gU di ci dis cds acc hold := by
  simp only [legalHoldMatchStep]
  repeat' split
  all_goals simp [ha]

theorem foldl_legalHoldMatchStep_mono (aT aI gU di ci : String) (dis cds : List String)
    (l : List LegalHold) (a : String) :
    ∀ acc, a ∈ acc → a ∈ l.foldl (legalHoldMatchStep aT aI gU di ci dis cds) acc := by
  induction l with
  | nil => intro acc ha; simpa using ha
  | cons h t ih =>
      intro acc ha
      exact ih _ (legalHoldMatchStep_mono aT aI gU di ci dis cds acc h a ha)

theorem legalHoldMatchStep_adds_tenant (aT aI gU di ci : String) (dis cds : List String)
    (acc : List String) (hold : LegalHold)
    (htenant : hold.tenant = aT)
    (hstype : pyLower (pyStrip hold.scope_type) = "tenant")
    (hsid : pyStrip hold.scope_id = aT ∨ pyStrip hold.scope_id = "*")
    (hne : pyStrip hold.scope_id ≠ "") :
    legalHoldMatchStep aT aI gU di ci dis cds acc hold = acc ++ [hold.hold_id] := by
  unfold legalHoldMatchStep
  simp [htenant, hstype, hne, hsid]

theorem mem_foldl_legalHoldMatchStep (aT aI gU di ci : String) (dis cds : List String)
    (hold : LegalHold)
    (htenant : hold.tenant = aT)
    (hstype : pyLower (pyStrip hold.scope_type) = "tenant")
    (hsid : pyStrip hold.scope_id = aT ∨ pyStrip hold.scope_id = "*")
    (hne : pyStrip hold.scope_id ≠ "") :
    ∀ (l : List LegalHold) (acc : List String), hold ∈ l →
      hold.hold_id ∈ l.foldl (legalHoldMatchStep aT aI gU di ci dis cds) acc := by
  intro l
  induction l with
  | nil => intro acc hmem; exact absurd hmem (List.not_mem_nil _)
  | cons h t ih =>
      intro acc hmem
      rw [List.foldl_cons]
      rcases List.mem_cons.mp hmem with he | ht
      · subst he
        apply foldl_legalHoldMatchStep_mono
        rw [legalHoldMatchStep_adds_tenant aT aI gU di ci dis cds acc hold
          htenant hstype hsid hne]
        simp
      · exact ih _ ht

theorem mem_matchingLegalHoldIds (aT aI gU : String) (metadata : List (String × Json))
    (holds : List LegalHold) (hold : LegalHold)
    (hmem : hold ∈ holds)
    (htenant : hold.tenant = aT)
    (hstype : pyLower (pyStrip hold.scope_type) = "tenant")
    (hsid : pyStrip hold.scope_id = aT ∨ pyStrip hold.scope_id = "*")
    (hne : pyStrip hold.scope_id ≠ "") :
    hold.hold_id ∈ matchingLegalHoldIdsForArtifact aT aI gU metadata holds :=
  mem_foldl_legalHoldMatchStep aT aI gU
    (metaStrField metadata "decision_id") (metaStrField metadata "case_id")
    (metaStrSet metadata "decision_ids") (metaStrSet metadata "context_docs")
    hold htenant hstype hsid hne holds [] hmem

theorem mem_listLegalHolds (table : List LegalHold) (tenant : Option String)
    (hold : LegalHold) (hmem : hold ∈ table) (hact : hold.released_at = none)
    (hpass : optTruthy tenant = true → hold.tenant = tenant.getD "") :
    hold ∈ listLegalHolds table tenant true := by
  unfold listLegalHolds
  refine (List.perm_insertionSort _ _).mem_iff.mpr ?_
  refine List.mem_filter.mpr ⟨hmem, ?_⟩
  cases hopt : optTruthy tenant
  · simp [hopt, hact]
  · simp [hopt, hact, hpass hopt]

/-- C1 (amended): for a retention candidate whose retention period has expired,
whose policy has `legal_hold_enabled`, and which is matched by an active
tenant-scope legal hold (scope id the artifact's tenant or `"*"`), the per-item
outcome of `enforce_retention` is `SKIP_LEGAL_HOLD` carrying the matching hold
ids, and never `DELETED` or `WOULD_DELETE`, regardless of the dry-run flag. -/
theorem retention_legal_hold_blocks_delete (now : Int) (dryRun : Bool)
    (tenant artifactType : Option String) (limit : Nat)
    (deleteResult : CandidateRow → Except String Bool)
    (artifacts : List AuditArtifact) (policies : List RetentionPolicyRow)
    (holdsTable : List LegalHold) (row : CandidateRow) (policy : RetentionPolicyInfo)
    (hold : LegalHold)
    (hrow : row ∈ listRetentionCandidates artifacts policies tenant artifactType limit)
    (hpol : extractRetentionPolicyFromCandidate row = some policy)
    (hlhe : policy.legal_hold_enabled = true)
    (hexp : row.created_at + policy.retain_days * 86400 ≤ now)
    (hmem : hold ∈ holdsTable)
    (hact : hold.released_at = none)
    (hpass : optTruthy tenant = true → hold.tenant = tenant.getD "")
    (htenant : hold.tenant = row.tenant)
    (hstype : pyLower (pyStrip hold.scope_type) = "tenant")
    (hsid : pyStrip hold.scope_id = row.tenant ∨ pyStrip hold.scope_id = "*")
    (hne : pyStrip hold.scope_id ≠ "") :
    (processCandidate now dryRun deleteResult (listLegalHolds holdsTable tenant true)
        row).action = "SKIP_LEGAL_HOLD" ∧
    (processCandidate now dryRun deleteResult (listLegalHolds holdsTable tenant true)
        row).hold_ids =
      matchingLegalHoldIdsForArtifact row.tenant row.artifact_id row.gs_uri row.metadata
        (listLegalHolds holdsTable tenant true) ∧
    (processCandidate now dryRun deleteResult (listLegalHolds holdsTable tenant true)
        row) ∈ (enforceRetention now dryRun tenant artifactType limit deleteResult
          artifacts policies holdsTable).items ∧
    (processCandidate now dryRun deleteResult (listLegalHolds holdsTable tenant true)
        row).action ≠ "DELETED" ∧
    (processCandidate now dryRun deleteResult (listLegalHolds holdsTable tenant true)
        row).action ≠ "WOULD_DELETE" := by
  have hmem' : hold ∈ listLegalHolds holdsTable tenant true :=
    mem_listLegalHolds holdsTable tenant hold hmem hact hpass
  have hmatch : hold.hold_id ∈ matchingLegalHoldIdsForArtifact row.tenant row.artifact_id
      row.gs_uri row.metadata (listLegalHolds holdsTable tenant true) :=
    mem_matchingLegalHoldIds row.tenant row.artifact_id row.gs_uri row.metadata
      (listLegalHolds holdsTable tenant true) hold hmem' htenant hstype hsid hne
  have hnotempty : ¬ (matchingLegalHoldIdsForArtifact row.tenant row.artifact_id
      row.gs_uri row.metadata (listLegalHolds holdsTable tenant true)).isEmpty := by
    cases hm : matchingLegalHoldIdsForArtifact row.tenant row.artifact_id
        row.gs_uri row.metadata (listLegalHolds holdsTable tenant true) with
    | nil => rw [hm] at hmatch; exact absurd hmatch (List.not_mem_nil _)
    | cons x xs => simp
  have hnexp : ¬ (row.created_at + policy.retain_days * 86400 > now) := not_lt.mpr hexp
  have hitem : processCandidate now dryRun deleteResult
      (listLegalHolds holdsTable tenant true) row =
      { artifact_id := row.artifact_id, tenant := row.tenant,
        artifact_type := row.artifact_type, gs_uri := row.gs_uri,
        created_at := row.created_at,
        expires_at := row.created_at + policy.retain_days * 86400,
        age_days := retentionAgeDays now row.created_at,
        action := "SKIP_LEGAL_HOLD", reason := "Active legal hold protects artifact",
        hold_ids := matchingLegalHoldIdsForArtifact row.tenant row.artifact_id row.gs_uri
          row.metadata (listLegalHolds holdsTable tenant true),
        error := none } := by
    simp [processCandidate, hpol, hnexp, hlhe, hnotempty]
  refine ⟨by rw [hitem], by rw [hitem], ?_, by rw [hitem]; simp, by rw [hitem]; simp⟩
  have hspec := (enforceLoop_spec now dryRun deleteResult
    (listLegalHolds holdsTable tenant true)
    (listRetentionCandidates artifacts policies tenant artifactType limit)).1
  simp only [enforceRetention, hspec]
  exact List.mem_map.mpr ⟨row, hrow, rfl⟩

set_option maxRecDepth 400000 in
/-- C1 counterexample: an expired artifact protected by an active, matching
tenant-scope legal hold is nevertheless `DELETED` when its retention policy has
`legal_hold_enabled = false` — the hold check is skipped entirely. -/
theorem retention_legal_hold_counterexample :
    ((enforceRetention (100 * 86400) false none none 100 (fun _ => Except.ok true)
        [⟨"art1", "t1", "decision_report", "gs://b/o", none, 0, [], none, none, none, none⟩]
        [⟨"t1", "decision_report", 30, false, true⟩]
        [⟨"lh1", "t1", "tenant", "t1", "hold", none, none, "admin", 0, none⟩]).items.map
      (fun i => i.action)) = ["DELETED"] ∧
    ((0 : Int) + 30 * 86400 ≤ 100 * 86400) ∧
    (⟨"lh1", "t1", "tenant", "t1", "hold", none, none, "admin", 0, none⟩ :
        LegalHold).released_at = none ∧
    ("DELETED" : String) ≠ "SKIP_LEGAL_HOLD" := by
  refine ⟨?_, by decide, rfl, by decide⟩
  decide

set_option maxRecDepth 400000 in
/-- Witness for C1 (amended) at a concrete expired artifact with an active
tenant-scope hold and a `legal_hold_enabled` policy, in dry-run mode. -/
theorem retention_legal_hold_blocks_delete_witness :
    (processCandidate (100 * 86400) true (fun _ => Except.ok true)
        (listLegalHolds [⟨"lh1", "t1", "tenant", "t1", "hold", none, none, "admin", 0, none⟩]
          none true)
        (candidateOfArtifact [⟨"t1", "decision_report", 30, true, true⟩]
          ⟨"art1", "t1", "decision_report", "gs://b/o", none, 0, [], none, none, none,
            none⟩)).action = "SKIP_LEGAL_HOLD" ∧
    (processCandidate (100 * 86400) true (fun _ => Except.ok true)
        (listLegalHolds [⟨"lh1", "t1", "tenant", "t1", "hold", none, none, "admin", 0, none⟩]
          none true)
        (candidateOfArtifact [⟨"t1", "decision_report", 30, true, true⟩]
          ⟨"art1", "t1", "decision_report", "gs://b/o", none, 0, [], none, none, none,
            none⟩)).action ≠ "DELETED" := by
  have hrow : candidateOfArtifact [⟨"t1", "decision_report", 30, true, true⟩]
      ⟨"art1", "t1", "decision_report", "gs://b/o", none, 0, [], none, none, none, none⟩ ∈
      listRetentionCandidates
        [⟨"art1", "t1", "decision_report", "gs://b/o", none, 0, [], none, none, none, none⟩]
        [⟨"t1", "decision_report", 30, true, true⟩] none none 100 := by
    have he : listRetentionCandidates
        [⟨"art1", "t1", "decision_report", "gs://b/o", none, 0, [], none, none, none, none⟩]
        [⟨"t1", "decision_report", 30, true, true⟩] none none 100 =
        [candidateOfArtifact [⟨"t1", "decision_report", 30, true, true⟩]
          ⟨"art1", "t1", "decision_report", "gs://b/o", none, 0, [], none, none, none,
            none⟩] := rfl
    rw [he]
    exact List.mem_singleton.mpr rfl
  have h := retention_legal_hold_blocks_delete (100 * 86400) true none none 100
    (fun _ => Except.ok true)
    [⟨"art1", "t1", "decision_report", "gs://b/o", none, 0, [], none, none, none, none⟩]
    [⟨"t1", "decision_report", 30, true, true⟩]
    [⟨"lh1", "t1", "tenant", "t1", "hold", none, none, "admin", 0, none⟩]
    (candidateOfArtifact [⟨"t1", "decision_report", 30, true, true⟩]
      ⟨"art1", "t1", "decision_report", "gs://b/o", none, 0, [], none, none, none, none⟩)
    ⟨30, true, true⟩
    ⟨"lh1", "t1", "tenant", "t1", "hold", none, none, "admin", 0, none⟩
    hrow rfl rfl (by decide) (List.mem_singleton.mpr rfl) rfl (by decide)
    (by decide) (by decide) (by decide) (by decide)
  exact ⟨h.1, h.2.2.2.1⟩

/-! ### Soft deletion of audit artifacts and legal-hold release -/

/-- Replace the value of `k` if present (keeping its position), else append —
PostgreSQL `jsonb_set` on the final path step with `create_missing = true`. -/
def dictSet (m : List (String × Json)) (k : String) (v : Json) : List (String × Json) :=
  if (dictGet m k).isSome then m.map (fun p => if p.1 = k then (p.1, v) else p)
  else m ++ [(k, v)]

/-- `jsonb_set(COALESCE(metadata, '\x7b\x7d'::jsonb), '\x7bk1,k2\x7d', v, true)`:
the last path step is created if missing, but an earlier missing or non-object
step leaves the target unchanged. -/
def jsonbSet2 (m : List (String × Json)) (k1 k2 : String) (v : Json) :
    List (String × Json) :=
  match dictGet m k1 with
  | some (.obj inner) => m.map (fun p => if p.1 = k1 then (p.1, Json.obj (dictSet inner k2 v)) else p)
  | some _ => m
  | none => m

/-- The per-row effect of the `_mark_audit_artifact_deleted` UPDATE: rows are
touched only when all four key columns match and `deleted_at IS NULL`. -/
def markAuditArtifactRow (artifactId tenant artifactType gsUri : String)
    (deletionReason deletedBy deleteJobId : String) (storageDeleted : Bool) (now : Int)
    (a : AuditArtifact) : AuditArtifact :=
  if a.artifact_id = artifactId ∧ a.tenant = tenant ∧ a.artifact_type = artifactType ∧
      a.gs_uri = gsUri ∧ a.deleted_at = none then
    { a with
      deleted_at := some (a.deleted_at.getD now)
      deleted_by := some deletedBy
      deletion_reason := some deletionReason
      delete_job_id := some deleteJobId
      metadata := jsonbSet2 a.metadata "retention_delete" "storage_deleted"
        (Json.bool storageDeleted) }
  else a

/-- `_mark_audit_artifact_deleted` over the whole `audit_artifacts` table. -/
def markAuditArtifactDeleted (table : List AuditArtifact)
    (artifactId tenant artifactType gsUri : String)
    (deletionReason deletedBy deleteJobId : String) (storageDeleted : Bool) (now : Int) :
    List AuditArtifact :=
  table.map (markAuditArtifactRow artifactId tenant artifactType gsUri deletionReason
    deletedBy deleteJobId storageDeleted now)

/-- C9: soft deletion is write-once and terminal — the
`_mark_audit_artifact_deleted` UPDATE leaves any row whose `deleted_at` is
already set completely unchanged (so `deleted_at`, once set, is never changed
by a later run), and `_list_retention_candidates` only ever selects rows with
`deleted_at` null (every candidate comes from a non-deleted artifact), so a
marked artifact is never scanned or touched by a subsequent enforcement run. -/
theorem audit_soft_delete_terminal :
    (∀ artifactId tenant artifactType gsUri deletionReason deletedBy deleteJobId
        storageDeleted now (a : AuditArtifact), a.deleted_at ≠ none →
      markAuditArtifactRow artifactId tenant artifactType gsUri deletionReason deletedBy
        deleteJobId storageDeleted now a = a) ∧
    (∀ (table : List AuditArtifact) artifactId tenant artifactType gsUri deletionReason
        deletedBy deleteJobId storageDeleted now (a : AuditArtifact), a ∈ table →
      a.deleted_at ≠ none →
      a ∈ markAuditArtifactDeleted table artifactId tenant artifactType gsUri
        deletionReason deletedBy deleteJobId storageDeleted now) ∧
    (∀ (artifacts : List AuditArtifact) (policies : List RetentionPolicyRow)
        (tenant artifactType : Option String) (limit : Nat) (c : CandidateRow),
      c ∈ listRetentionCandidates artifacts policies tenant artifactType limit →
      ∃ a ∈ artifacts, a.deleted_at = none ∧ c = candidateOfArtifact policies a) := by
  have hrow : ∀ artifactId tenant artifactType gsUri deletionReason deletedBy deleteJobId
      storageDeleted now (a : AuditArtifact), a.deleted_at ≠ none →
      markAuditArtifactRow artifactId tenant artifactType gsUri deletionReason deletedBy
        deleteJobId storageDeleted now a = a := by
    intro artifactId tenant artifactType gsUri r1 r2 r3 sd now a ha
    unfold markAuditArtifactRow
    rw [if_neg]
    intro hc
    exact ha hc.2.2.2.2
  refine ⟨hrow, ?_, ?_⟩
  · intro table artifactId tenant artifactType gsUri r1 r2 r3 sd now a hmem ha
    unfold markAuditArtifactDeleted
    exact List.mem_map.mpr ⟨a, hmem, hrow artifactId tenant artifactType gsUri r1 r2 r3
      sd now a ha⟩
  · intro artifacts policies tenant artifactType limit c hc
    unfold listRetentionCandidates at hc
    have hc' := List.mem_of_mem_take hc
    obtain ⟨a, hmemsort, hca⟩ := List.mem_map.mp hc'
    have hmemfil := (List.perm_insertionSort _ _).subset hmemsort
    have hfil := List.mem_filter.mp hmemfil
    refine ⟨a, hfil.1, ?_, hca.symm⟩
    have hdel := hfil.2
    simp only [Bool.and_eq_true, decide_eq_true_eq] at hdel
    exact hdel.1.1

/-- Witness for C9 at a concrete already-deleted artifact and a concrete
candidate listing. -/
theorem audit_soft_delete_terminal_witness :
    markAuditArtifactRow "a1" "t1" "decision_report" "gs://x" "r" "by" "j" true 10
      ⟨"a1", "t1", "decision_report", "gs://x", none, 0, [], some 5, none, none, none⟩ =
      ⟨"a1", "t1", "decision_report", "gs://x", none, 0, [], some 5, none, none, none⟩ ∧
    (∃ a ∈ [(⟨"a2", "t1", "decision_report", "gs://y", none, 0, [], none, none, none,
        none⟩ : AuditArtifact)],
      a.deleted_at = none ∧
      candidateOfArtifact []
        ⟨"a2", "t1", "decision_report", "gs://y", none, 0, [], none, none, none, none⟩ =
        candidateOfArtifact [] a) := by
  constructor
  · exact audit_soft_delete_terminal.1 "a1" "t1" "decision_report" "gs://x" "r" "by" "j"
      true 10 _ (by decide)
  · refine audit_soft_delete_terminal.2.2
      [⟨"a2", "t1", "decision_report", "gs://y", none, 0, [], none, none, none, none⟩]
      [] none none 5
      (candidateOfArtifact []
        ⟨"a2", "t1", "decision_report", "gs://y", none, 0, [], none, none, none, none⟩) ?_
    have he : listRetentionCandidates
        [⟨"a2", "t1", "decision_report", "gs://y", none, 0, [], none, none, none, none⟩]
        [] none none 5 =
        [candidateOfArtifact []
          ⟨"a2", "t1", "decision_report", "gs://y", none, 0, [], none, none, none,
            none⟩] := rfl
    rw [he]
    exact List.mem_singleton.mpr rfl

/-- The per-row effect of the `_release_legal_hold` UPDATE:
`released_at = COALESCE(released_at, NOW())` on matching rows. -/
def releaseHoldRow (holdId : String) (now : Int) (h : LegalHold) : LegalHold :=
  if h.hold_id = holdId then { h with released_at := some (h.released_at.getD now) } else h

/-- `_release_legal_hold`: run the UPDATE, return the new table and the
RETURNING row (`fetchone`). -/
def releaseLegalHold (table : List LegalHold) (holdId : String) (now : Int) :
    List LegalHold × Option LegalHold :=
  let updated := table.map (releaseHoldRow holdId now)
  (updated, updated.find? (fun h => h.hold_id = holdId))

/-- The `release_legal_hold` route: 404 when no row matched (the transaction is
rolled back, and the UPDATE matched nothing anyway). -/
def releaseLegalHoldRoute (table : List LegalHold) (holdId : String) (now : Int) :
    Except HttpError (List LegalHold × LegalHold) :=
  match releaseLegalHold table holdId now with
  | (updated, some row) => .ok (updated, row)
  | (_, none) => .error ⟨404, "Legal hold not found"⟩

theorem releaseHoldRow_released (holdId : String) (now : Int) (h : LegalHold) (t : Int)
    (ht : h.released_at = some t) : releaseHoldRow holdId now h = h := by
  unfold releaseHoldRow
  by_cases hid : h.hold_id = holdId
  · rw [if_pos hid, ht]
    cases h
    simp_all
  · rw [if_neg hid]

theorem releaseHoldRow_idem (holdId : String) (now1 now2 : Int) (h : LegalHold) :
    releaseHoldRow holdId now2 (releaseHoldRow holdId now1 h) =
      releaseHoldRow holdId now1 h := by
  by_cases hid : h.hold_id = holdId
  · refine releaseHoldRow_released holdId now2 _ (h.released_at.getD now1) ?_
    unfold releaseHoldRow
    rw [if_pos hid]
  · unfold releaseHoldRow
    rw [if_neg hid, if_neg hid]

/-- C10: releasing a legal hold is idempotent and non-destructive — releasing
an already-released hold keeps its original `released_at`
(`COALESCE(released_at, NOW())`) and releasing twice equals releasing once; no
row is ever deleted; releasing an unknown hold id yields a 404 and modifies no
state. -/
theorem legal_hold_release_idempotent :
    (∀ (table : List LegalHold) (holdId : String) (now1 now2 : Int),
      (releaseLegalHold (releaseLegalHold table holdId now1).1 holdId now2).1 =
        (releaseLegalHold table holdId now1).1) ∧
    (∀ (table : List LegalHold) (holdId : String) (now : Int),
      (releaseLegalHold table holdId now).1.length = table.length) ∧
    (∀ (holdId : String) (now : Int) (h : LegalHold) (t : Int),
      h.released_at = some t → releaseHoldRow holdId now h = h) ∧
    (∀ (table : List LegalHold) (holdId : String) (now : Int),
      (∀ h ∈ table, h.hold_id ≠ holdId) →
      releaseLegalHoldRoute table holdId now = .error ⟨404, "Legal hold not found"⟩ ∧
      (releaseLegalHold table holdId now).1 = table) := by
  refine ⟨?_, ?_, releaseHoldRow_released, ?_⟩
  · intro table holdId now1 now2
    simp only [releaseLegalHold, List.map_map]
    exact List.map_congr_left (fun h _ => releaseHoldRow_idem holdId now1 now2 h)
  · intro table holdId now
    simp [releaseLegalHold]
  · intro table holdId now hno
    have hid : table.map (releaseHoldRow holdId now) = table := by
      have : table.map (releaseHoldRow holdId now) = table.map id :=
        List.map_congr_left (fun h hm => by
          unfold releaseHoldRow
          rw [if_neg (hno h hm)]
          rfl)
      simpa using this
    have hfind : table.find? (fun h => h.hold_id = holdId) = none :=
      List.find?_eq_none.mpr (fun h hm => by simpa using hno h hm)
    constructor
    · unfold releaseLegalHoldRoute releaseLegalHold
      simp only [hid, hfind]
    · simp only [releaseLegalHold, hid]

/-- Witness for C10 at a concrete hold table. -/
theorem legal_hold_release_idempotent_witness :
    (releaseLegalHold (releaseLegalHold
        [⟨"lh1", "t1", "tenant", "t1", "r", none, none, "a", 0, none⟩] "lh1" 7).1
      "lh1" 9).1 =
      (releaseLegalHold
        [⟨"lh1", "t1", "tenant", "t1", "r", none, none, "a", 0, none⟩] "lh1" 7).1 ∧
    releaseHoldRow "lh2" 9 ⟨"lh2", "t1", "tenant", "t1", "r", none, none, "a", 0, some 5⟩ =
      ⟨"lh2", "t1", "tenant", "t1", "r", none, none, "a", 0, some 5⟩ ∧
    releaseLegalHoldRoute
        [⟨"lh1", "t1", "tenant", "t1", "r", none, none, "a", 0, none⟩] "zz" 9 =
      .error ⟨404, "Legal hold not found"⟩ := by
  refine ⟨legal_hold_release_idempotent.1 _ "lh1" 7 9, ?_, ?_⟩
  · exact legal_hold_release_idempotent.2.2.1 "lh2" 9 _ 5 rfl
  · exact (legal_hold_release_idempotent.2.2.2
      [⟨"lh1", "t1", "tenant", "t1", "r", none, none, "a", 0, none⟩] "zz" 9
      (by decide)).1

/-! ### Decision ledger: ingest validation, upsert, context-link replacement -/

/-- An `ai_decisions` row. -/
structure DecisionRow where
  id : Nat
  decision_id : String
  tenant : String
  model : String
  model_version : Option String
  input : String
  output : String
  confidence : Option Rat
  trace_id : String
  metadata : List (String × Json)
  created_at : Int
  updated_at : Int

/-- An `AIDecisionIngestRequest` (context ids already normalized by the
request validator: stripped, non-empty, de-duplicated). -/
structure IngestPayload where
  decision_id : String
  model : String
  model_version : Option String
  input : String
  output : String
  confidence : Option Rat
  context_docs : List String
  context_chunks : List String
  tenant : String
  metadata : List (String × Json)

/-- `_upsert_ai_decision`: `INSERT ... ON CONFLICT (tenant, decision_id) DO
UPDATE` overwriting the mutable columns and refreshing `updated_at`, returning
`(table', id, created_at, updated_at)`. -/
def upsertAiDecision (table : List DecisionRow) (payload : IngestPayload)
    (traceId : String) (now : Int) (freshId : Nat) :
    List DecisionRow × Nat × Int × Int :=
  match table.find? (fun r => r.tenant = payload.tenant ∧
      r.decision_id = payload.decision_id) with
  | some r =>
      let updated := table.map (fun x =>
        if x.tenant = payload.tenant ∧ x.decision_id = payload.decision_id then
          { x with
            model := payload.model
            model_version := payload.model_version
            input := payload.input
            output := payload.output
            confidence := payload.confidence
            trace_id := traceId
            metadata := payload.metadata
            updated_at := now }
        else x)
      (updated, r.id, r.created_at, now)
  | none =>
      (table ++ [{ id := freshId, decision_id := payload.decision_id,
                   tenant := payload.tenant, model := payload.model,
                   model_version := payload.model_version, input := payload.input,
                   output := payload.output, confidence := payload.confidence,
                   trace_id := traceId, metadata := payload.metadata,
                   created_at := now, updated_at := now }],
       freshId, now, now)

/-- A row of `ai_decision_context_docs` / `ai_decision_context_chunks`
(both tables have the shape `(decision_ref_id, tenant, item id)`). -/
structure ContextLink where
  decision_ref_id : Nat
  tenant : String
  item_id : String
deriving DecidableEq

/-- One `INSERT ... ON CONFLICT (decision_ref_id, item) DO NOTHING`. -/
def insertLinkIfAbsent (refId : Nat) (tenant : String) (links : List ContextLink)
    (itemId : String) : List ContextLink :=
  if links.any (fun l => l.decision_ref_id = refId ∧ l.item_id = itemId) then links
  else links ++ [⟨refId, tenant, itemId⟩]

/-- The shared body of `_replace_ai_decision_context_docs` and
`_replace_ai_decision_context_chunks`: DELETE the decision's links, then insert
the supplied ids. -/
def replaceDecisionContextLinks (links : List ContextLink) (refId : Nat)
    (tenant : String) (itemIds : List String) : List ContextLink :=
  let remaining := links.filter (fun l =>
    ¬ (l.decision_ref_id = refId ∧ l.tenant = tenant))
  itemIds.foldl (insertLinkIfAbsent refId tenant) remaining

/-- `_replace_ai_decision_context_docs`. -/
def replaceAiDecisionContextDocs (links : List ContextLink) (refId : Nat)
    (tenant : String) (docIds : List String) : List ContextLink :=
  replaceDecisionContextLinks links refId tenant docIds

/-- `_replace_ai_decision_context_chunks`. -/
def replaceAiDecisionContextChunks (links : List ContextLink) (refId : Nat)
    (tenant : String) (chunkIds : List String) : List ContextLink :=
  replaceDecisionContextLinks links refId tenant chunkIds

/-- A `documents` row (the columns decision ingest consults). -/
structure DocRow where
  tenant : String
  doc_id : String
deriving DecidableEq

/-- A `chunks` row (the columns decision ingest consults). -/
structure ChunkRow where
  tenant : String
  chunk_id : String
  doc_id : String
deriving DecidableEq

/-- `_missing_document_ids`: the supplied ids with no matching document row
for the tenant, in supplied order. -/
def missingDocumentIds (documents : List DocRow) (tenant : String)
    (docIds : List String) : List String :=
  let found := (documents.filter (fun r => r.tenant = tenant ∧ r.doc_id ∈ docIds)).map
    (fun r => r.doc_id)
  docIds.filter (fun d => ¬ d ∈ found)

/-- `_validate_context_chunks`: `(missing chunk ids, mismatched chunk ids)`.
The code builds a dict keyed by `chunk_id`; `chunk_id` is unique per tenant
(the table's key), so on the rows of one tenant that dict is exactly this
association list. -/
def validateContextChunks (chunks : List ChunkRow) (tenant : String)
    (chunkIds : List String) (allowedDocIds : List String) :
    List String × List String :=
  if chunkIds.isEmpty then ([], [])
  else
    let rows := chunks.filter (fun r => r.tenant = tenant ∧ r.chunk_id ∈ chunkIds)
    let by_chunk_id := rows.map (fun r => (r.chunk_id, r.doc_id))
    let missing := chunkIds.filter (fun c => ¬ c ∈ by_chunk_id.map Prod.fst)
    let mismatched := (by_chunk_id.filter (fun p => ¬ p.2 ∈ allowedDocIds)).map Prod.fst
    (missing, mismatched)

/-- The database state decision ingest reads and writes. -/
structure IngestState where
  documents : List DocRow
  chunks : List ChunkRow
  decisions : List DecisionRow
  doc_links : List ContextLink
  chunk_links : List ContextLink

/-- The three validation failures of `ingest_decision`, each carrying its
complete id list under its own key (`missing_doc_ids` → HTTP 404,
`missing_chunk_ids` → HTTP 404, `mismatched_chunk_ids` → HTTP 400). -/
inductive IngestError where
  | missingDocs (ids : List String)
  | missingChunks (ids : List String)
  | mismatchedChunks (ids : List String)
deriving DecidableEq

/-- `ingest_decision`: validate every context reference, then upsert the
decision row and replace both context-link sets — all inside one transaction,
so a validation failure (a raised HTTPException before commit) leaves the
state unchanged. -/
def ingestDecision (st : IngestState) (payload : IngestPayload) (traceId : String)
    (now : Int) (freshId : Nat) : IngestState × Option IngestError :=
  let missing_doc_ids := missingDocumentIds st.documents payload.tenant payload.context_docs
  if ¬ missing_doc_ids.isEmpty then (st, some (.missingDocs missing_doc_ids))
  else
    let v := validateContextChunks st.chunks payload.tenant payload.context_chunks
      payload.context_docs
    if ¬ v.1.isEmpty then (st, some (.missingChunks v.1))
    else if ¬ v.2.isEmpty then (st, some (.mismatchedChunks v.2))
    else
      let u := upsertAiDecision st.decisions payload traceId now freshId
      ({ st with
         decisions := u.1
         doc_links := replaceAiDecisionContextDocs st.doc_links u.2.1 payload.tenant
           payload.context_docs
         chunk_links := replaceAiDecisionContextChunks st.chunk_links u.2.1 payload.tenant
           payload.context_chunks }, none)

theorem insertLinkIfAbsent_mem (refId : Nat) (tenant : String) (acc : List ContextLink)
    (i d : String) :
    (∃ l ∈ insertLinkIfAbsent refId tenant acc i,
        l.decision_ref_id = refId ∧ l.item_id = d) ↔
    (∃ l ∈ acc, l.decision_ref_id = refId ∧ l.item_id = d) ∨ d = i := by
  unfold insertLinkIfAbsent
  by_cases hany : acc.any (fun l => l.decision_ref_id = refId ∧ l.item_id = i)
  · rw [if_pos hany]
    constructor
    · exact Or.inl
    · rintro (h | rfl)
      · exact h
      · simp only [List.any_eq_true, decide_eq_true_eq] at hany
        obtain ⟨l, hl, hp⟩ := hany
        exact ⟨l, hl, hp⟩
  · rw [if_neg hany]
    constructor
    · rintro ⟨l, hl, hp⟩
      rcases List.mem_append.mp hl with h | h
      · exact Or.inl ⟨l, h, hp⟩
      · simp only [List.mem_singleton] at h
        subst h
        exact Or.inr hp.2.symm
    · rintro (⟨l, hl, hp⟩ | rfl)
      · exact ⟨l, List.mem_append_left _ hl, hp⟩
      · exact ⟨⟨refId, tenant, d⟩, List.mem_append_right _ (List.mem_singleton.mpr rfl),
          rfl, rfl⟩

theorem foldl_insertLinkIfAbsent_mem (refId : Nat) (tenant : String) :
    ∀ (itemIds : List String) (acc : List ContextLink) (d : String),
    (∃ l ∈ itemIds.foldl (insertLinkIfAbsent refId tenant) acc,
        l.decision_ref_id = refId ∧ l.item_id = d) ↔
    (∃ l ∈ acc, l.decision_ref_id = refId ∧ l.item_id = d) ∨ d ∈ itemIds := by
  intro itemIds
  induction itemIds with
  | nil => intro acc d; simp
  | cons i rest ih =>
      intro acc d
      rw [List.foldl_cons, ih, insertLinkIfAbsent_mem]
      simp only [List.mem_cons]
      exact or_assoc

theorem replaceDecisionContextLinks_mem (links : List ContextLink) (refId : Nat)
    (tenant : String) (itemIds : List String)
    (hclean : ∀ l ∈ links, l.decision_ref_id = refId → l.tenant = tenant) :
    ∀ d, (∃ l ∈ replaceDecisionContextLinks links refId tenant itemIds,
        l.decision_ref_id = refId ∧ l.item_id = d) ↔ d ∈ itemIds := by
  intro d
  unfold replaceDecisionContextLinks
  rw [foldl_insertLinkIfAbsent_mem]
  have hrem : ¬ ∃ l ∈ links.filter (fun l =>
      ¬ (l.decision_ref_id = refId ∧ l.tenant = tenant)),
      l.decision_ref_id = refId ∧ l.item_id = d := by
    rintro ⟨l, hl, href, _⟩
    have h2 := List.mem_filter.mp hl
    simp only [decide_not, Bool.not_eq_true', decide_eq_false_iff_not] at h2
    exact h2.2 ⟨href, hclean l h2.1 href⟩
  constructor
  · rintro (h | h)
    · exact absurd h hrem
    · exact h
  · exact Or.inr

theorem upsertAiDecision_conflict (table : List DecisionRow) (payload : IngestPayload)
    (traceId : String) (now : Int) (freshId : Nat) (r0 : DecisionRow)
    (hmem : r0 ∈ table) (ht : r0.tenant = payload.tenant)
    (hd : r0.decision_id = payload.decision_id)
    (huniq : ∀ r ∈ table, r.tenant = payload.tenant → r.decision_id = payload.decision_id
      → r = r0) :
    (upsertAiDecision table payload traceId now freshId).2 = (r0.id, r0.created_at, now) ∧
    { r0 with
      model := payload.model, model_version := payload.model_version,
      input := payload.input, output := payload.output,
      confidence := payload.confidence, trace_id := traceId,
      metadata := payload.metadata, updated_at := now } ∈
      (upsertAiDecision table payload traceId now freshId).1 ∧
    (upsertAiDecision table payload traceId now freshId).1.length = table.length := by
  have hsome : (table.find? (fun r => r.tenant = payload.tenant ∧
      r.decision_id = payload.decision_id)).isSome := by
    rw [List.find?_isSome]
    exact ⟨r0, hmem, by simp [ht, hd]⟩
  obtain ⟨r', hfind⟩ := Option.isSome_iff_exists.mp hsome
  have hr'mem : r' ∈ table := List.mem_of_find?_eq_some hfind
  have hr'p := List.find?_some hfind
  simp only [decide_eq_true_eq] at hr'p
  have hr0 : r' = r0 := huniq r' hr'mem hr'p.1 hr'p.2
  subst hr0
  unfold upsertAiDecision
  rw [hfind]
  refine ⟨rfl, ?_, by simp⟩
  exact List.mem_map.mpr ⟨r', hmem, by rw [if_pos ⟨ht, hd⟩]⟩

/-- C4: decision ingest upserts by the natural key `(tenant, decision_id)` —
on conflict every mutable field is overwritten, `updated_at` is refreshed,
`created_at` and the row id are preserved, no row is added — and the
context-doc and context-chunk link sets are fully replaced by the supplied
lists (old links removed, new links inserted), so an ingest call is
authoritative for the decision's current context. -/
theorem decision_upsert_authoritative :
    (∀ (table : List DecisionRow) (payload : IngestPayload) (traceId : String) (now : Int)
        (freshId : Nat) (r0 : DecisionRow),
      r0 ∈ table → r0.tenant = payload.tenant → r0.decision_id = payload.decision_id →
      (∀ r ∈ table, r.tenant = payload.tenant → r.decision_id = payload.decision_id →
        r = r0) →
      (upsertAiDecision table payload traceId now freshId).2 =
        (r0.id, r0.created_at, now) ∧
      { r0 with
        model := payload.model, model_version := payload.model_version,
        input := payload.input, output := payload.output,
        confidence := payload.confidence, trace_id := traceId,
        metadata := payload.metadata, updated_at := now } ∈
        (upsertAiDecision table payload traceId now freshId).1 ∧
      (upsertAiDecision table payload traceId now freshId).1.length = table.length) ∧
    (∀ (links : List ContextLink) (refId : Nat) (tenant : String) (docIds : List String),
      (∀ l ∈ links, l.decision_ref_id = refId → l.tenant = tenant) →
      ∀ d, (∃ l ∈ replaceAiDecisionContextDocs links refId tenant docIds,
          l.decision_ref_id = refId ∧ l.item_id = d) ↔ d ∈ docIds) ∧
    (∀ (links : List ContextLink) (refId : Nat) (tenant : String) (chunkIds : List String),
      (∀ l ∈ links, l.decision_ref_id = refId → l.tenant = tenant) →
      ∀ d, (∃ l ∈ replaceAiDecisionContextChunks links refId tenant chunkIds,
          l.decision_ref_id = refId ∧ l.item_id = d) ↔ d ∈ chunkIds) :=
  ⟨upsertAiDecision_conflict,
   fun links refId tenant docIds hclean =>
     replaceDecisionContextLinks_mem links refId tenant docIds hclean,
   fun links refId tenant chunkIds hclean =>
     replaceDecisionContextLinks_mem links refId tenant chunkIds hclean⟩

/-- Witness for C4 at a concrete existing decision row and link table. -/
theorem decision_upsert_authoritative_witness :
    (upsertAiDecision
        [⟨1, "d1", "t1", "m0", none, "in0", "out0", none, "tr0", [], 100, 100⟩]
        ⟨"d1", "m1", some "v1", "in1", "out1", none, ["doc1"], [], "t1", []⟩
        "tr1" 200 9).2 = (1, 100, 200) ∧
    (∃ l ∈ replaceAiDecisionContextDocs [⟨7, "t1", "old"⟩] 7 "t1" ["d1"],
      l.decision_ref_id = 7 ∧ l.item_id = "d1") ∧
    ¬ (∃ l ∈ replaceAiDecisionContextDocs [⟨7, "t1", "old"⟩] 7 "t1" ["d1"],
      l.decision_ref_id = 7 ∧ l.item_id = "old") := by
  refine ⟨?_, ?_, ?_⟩
  · exact (decision_upsert_authoritative.1
      [⟨1, "d1", "t1", "m0", none, "in0", "out0", none, "tr0", [], 100, 100⟩]
      ⟨"d1", "m1", some "v1", "in1", "out1", none, ["doc1"], [], "t1", []⟩
      "tr1" 200 9 ⟨1, "d1", "t1", "m0", none, "in0", "out0", none, "tr0", [], 100, 100⟩
      (List.mem_singleton.mpr rfl) rfl rfl
      (fun r hr _ _ => List.mem_singleton.mp hr)).1
  · exact (decision_upsert_authoritative.2.1 [⟨7, "t1", "old"⟩] 7 "t1" ["d1"]
      (by intro l hl _; rw [List.mem_singleton] at hl; subst hl; rfl) "d1").mpr
      (by decide)
  · intro hc
    exact absurd ((decision_upsert_authoritative.2.1 [⟨7, "t1", "old"⟩] 7 "t1" ["d1"]
      (by intro l hl _; rw [List.mem_singleton] at hl; subst hl; rfl) "old").mp hc)
      (by decide)

theorem missingDocumentIds_mem (documents : List DocRow) (tenant : String)
    (docIds : List String) (d : String) :
    d ∈ missingDocumentIds documents tenant docIds ↔
    d ∈ docIds ∧ ¬ ∃ r ∈ documents, r.tenant = tenant ∧ r.doc_id = d := by
  unfold missingDocumentIds
  simp only [List.mem_filter, List.mem_map, decide_eq_true_eq, Bool.not_eq_true',
    decide_eq_false_iff_not]
  constructor
  · rintro ⟨hd, hnot⟩
    refine ⟨hd, ?_⟩
    rintro ⟨r, hr, hrt, hrd⟩
    exact hnot ⟨r, ⟨hr, hrt, by rw [hrd]; exact hd⟩, hrd⟩
  · rintro ⟨hd, hnot⟩
    refine ⟨hd, ?_⟩
    rintro ⟨r, ⟨hr, hrt, _⟩, hrd⟩
    exact hnot ⟨r, hr, hrt, hrd⟩

theorem validateContextChunks_missing_mem (chunks : List ChunkRow) (tenant : String)
    (chunkIds allowedDocIds : List String) (c : String) :
    c ∈ (validateContextChunks chunks tenant chunkIds allowedDocIds).1 ↔
    c ∈ chunkIds ∧ ¬ ∃ r ∈ chunks, r.tenant = tenant ∧ r.chunk_id = c := by
  by_cases he : chunkIds.isEmpty
  · have h0 : chunkIds = [] := List.isEmpty_iff.mp he
    subst h0
    simp [validateContextChunks]
  · unfold validateContextChunks
    rw [if_neg he]
    simp only [List.mem_filter, List.mem_map, decide_eq_true_eq, Bool.not_eq_true',
      decide_eq_false_iff_not]
    constructor
    · rintro ⟨hc, hnot⟩
      refine ⟨hc, ?_⟩
      rintro ⟨r, hr, hrt, hrc⟩
      exact hnot ⟨(r.chunk_id, r.doc_id),
        ⟨r, ⟨hr, hrt, by rw [hrc]; exact hc⟩, rfl⟩, hrc⟩
    · rintro ⟨hc, hnot⟩
      refine ⟨hc, ?_⟩
      rintro ⟨p, ⟨r, ⟨hr, hrt, _⟩, hp⟩, hpc⟩
      subst hp
      exact hnot ⟨r, hr, hrt, hpc⟩

theorem validateContextChunks_mismatched_mem (chunks : List ChunkRow) (tenant : String)
    (chunkIds allowedDocIds : List String) (c : String) :
    c ∈ (validateContextChunks chunks tenant chunkIds allowedDocIds).2 ↔
    ∃ r ∈ chunks, r.tenant = tenant ∧ r.chunk_id = c ∧ c ∈ chunkIds ∧
      ¬ r.doc_id ∈ allowedDocIds := by
  by_cases he : chunkIds.isEmpty
  · have h0 : chunkIds = [] := List.isEmpty_iff.mp he
    subst h0
    simp [validateContextChunks]
  · unfold validateContextChunks
    rw [if_neg he]
    simp only [List.mem_map, List.mem_filter, decide_eq_true_eq, Bool.not_eq_true',
      decide_eq_false_iff_not]
    constructor
    · rintro ⟨p, ⟨⟨r, ⟨hr, hrt, hrm⟩, hp⟩, hpd⟩, hpc⟩
      subst hp
      exact ⟨r, hr, hrt, hpc, hpc ▸ hrm, hpd⟩
    · rintro ⟨r, hr, hrt, hrc, hcm, hrd⟩
      exact ⟨(r.chunk_id, r.doc_id),
        ⟨⟨r, ⟨hr, hrt, by rw [hrc]; exact hcm⟩, rfl⟩, hrd⟩, hrc⟩

/-- C5: decision ingest rejects — without writing or modifying any state —
whenever any context-doc id is unknown for the tenant, any context-chunk id is
unknown, or any context chunk belongs to a document outside `context_docs`;
each failure carries the complete offending-id list of its category under its
own key (categories are checked in this fixed order, the first non-empty one
being reported), ingest succeeds iff all three lists are empty, and each list
is characterized exactly. -/
theorem decision_ingest_rejects_unknown_context :
    (∀ (st : IngestState) (payload : IngestPayload) (traceId : String) (now : Int)
        (freshId : Nat),
      missingDocumentIds st.documents payload.tenant payload.context_docs ≠ [] →
      ingestDecision st payload traceId now freshId =
        (st, some (.missingDocs
          (missingDocumentIds st.documents payload.tenant payload.context_docs)))) ∧
    (∀ (st : IngestState) (payload : IngestPayload) (traceId : String) (now : Int)
        (freshId : Nat),
      missingDocumentIds st.documents payload.tenant payload.context_docs = [] →
      (validateContextChunks st.chunks payload.tenant payload.context_chunks
        payload.context_docs).1 ≠ [] →
      ingestDecision st payload traceId now freshId =
        (st, some (.missingChunks (validateContextChunks st.chunks payload.tenant
          payload.context_chunks payload.context_docs).1))) ∧
    (∀ (st : IngestState) (payload : IngestPayload) (traceId : String) (now : Int)
        (freshId : Nat),
      missingDocumentIds st.documents payload.tenant payload.context_docs = [] →
      (validateContextChunks st.chunks payload.tenant payload.context_chunks
        payload.context_docs).1 = [] →
      (validateContextChunks st.chunks payload.tenant payload.context_chunks
        payload.context_docs).2 ≠ [] →
      ingestDecision st payload traceId now freshId =
        (st, some (.mismatchedChunks (validateContextChunks st.chunks payload.tenant
          payload.context_chunks payload.context_docs).2))) ∧
    (∀ (st : IngestState) (payload : IngestPayload) (traceId : String) (now : Int)
        (freshId : Nat),
      (ingestDecision st payload traceId now freshId).2 = none ↔
        (missingDocumentIds st.documents payload.tenant payload.context_docs = [] ∧
         (validateContextChunks st.chunks payload.tenant payload.context_chunks
           payload.context_docs).1 = [] ∧
         (validateContextChunks st.chunks payload.tenant payload.context_chunks
           payload.context_docs).2 = [])) ∧
    (∀ (documents : List DocRow) (tenant : String) (docIds : List String) (d : String),
      d ∈ missingDocumentIds documents tenant docIds ↔
      d ∈ docIds ∧ ¬ ∃ r ∈ documents, r.tenant = tenant ∧ r.doc_id = d) ∧
    (∀ (chunks : List ChunkRow) (tenant : String) (chunkIds allowedDocIds : List String)
        (c : String),
      c ∈ (validateContextChunks chunks tenant chunkIds allowedDocIds).1 ↔
      c ∈ chunkIds ∧ ¬ ∃ r ∈ chunks, r.tenant = tenant ∧ r.chunk_id = c) ∧
    (∀ (chunks : List ChunkRow) (tenant : String) (chunkIds allowedDocIds : List String)
        (c : String),
      c ∈ (validateContextChunks chunks tenant chunkIds allowedDocIds).2 ↔
      ∃ r ∈ chunks, r.tenant = tenant ∧ r.chunk_id = c ∧ c ∈ chunkIds ∧
        ¬ r.doc_id ∈ allowedDocIds) := by
  refine ⟨?_, ?_, ?_, ?_, missingDocumentIds_mem, validateContextChunks_missing_mem,
    validateContextChunks_mismatched_mem⟩
  · intro st payload traceId now freshId h
    have h' : ¬ (missingDocumentIds st.documents payload.tenant
        payload.context_docs).isEmpty := by simpa [List.isEmpty_iff] using h
    simp [ingestDecision, h']
  · intro st payload traceId now freshId h1 h2
    have h1' : (missingDocumentIds st.documents payload.tenant
        payload.context_docs).isEmpty := by simp [List.isEmpty_iff, h1]
    have h2' : ¬ (validateContextChunks st.chunks payload.tenant payload.context_chunks
        payload.context_docs).1.isEmpty := by simpa [List.isEmpty_iff] using h2
    simp [ingestDecision, h1', h2']
  · intro st payload traceId now freshId h1 h2 h3
    have h1' : (missingDocumentIds st.documents payload.tenant
        payload.context_docs).isEmpty := by simp [List.isEmpty_iff, h1]
    have h2' : (validateContextChunks st.chunks payload.tenant payload.context_chunks
        payload.context_docs).1.isEmpty := by simp [List.isEmpty_iff, h2]
    have h3' : ¬ (validateContextChunks st.chunks payload.tenant payload.context_chunks
        payload.context_docs).2.isEmpty := by simpa [List.isEmpty_iff] using h3
    simp [ingestDecision, h1', h2', h3']
  · intro st payload traceId now freshId
    by_cases h1 : (missingDocumentIds st.documents payload.tenant
        payload.context_docs).isEmpty
    · by_cases h2 : (validateContextChunks st.chunks payload.tenant
          payload.context_chunks payload.context_docs).1.isEmpty
      · by_cases h3 : (validateContextChunks st.chunks payload.tenant
            payload.context_chunks payload.context_docs).2.isEmpty
        · simp_all [ingestDecision, List.isEmpty_iff]
        · simp_all [ingestDecision, List.isEmpty_iff]
      · simp_all [ingestDecision, List.isEmpty_iff]
    · simp_all [ingestDecision, List.isEmpty_iff]

/-- Witness for C5: ingesting with `context_docs=["d1","d2"]` where only `d1`
exists yields `missing_doc_ids=["d2"]` with the state unchanged. -/
theorem decision_ingest_rejects_unknown_context_witness :
    ingestDecision ⟨[⟨"t1", "d1"⟩], [], [], [], []⟩
      ⟨"dec1", "m", none, "in", "out", none, ["d1", "d2"], [], "t1", []⟩ "tr" 0 1 =
      (⟨[⟨"t1", "d1"⟩], [], [], [], []⟩, some (.missingDocs ["d2"])) ∧
    ((ingestDecision ⟨[⟨"t1", "d1"⟩], [], [], [], []⟩
      ⟨"dec1", "m", none, "in", "out", none, ["d1"], [], "t1", []⟩ "tr" 0 1).2 = none) := by
  constructor
  · have h := decision_ingest_rejects_unknown_context.1 ⟨[⟨"t1", "d1"⟩], [], [], [], []⟩
      ⟨"dec1", "m", none, "in", "out", none, ["d1", "d2"], [], "t1", []⟩ "tr" 0 1
      (by decide)
    have he : missingDocumentIds [⟨"t1", "d1"⟩] "t1" ["d1", "d2"] = ["d2"] := by decide
    rw [h, he]
  · exact (decision_ingest_rejects_unknown_context.2.2.2.1 ⟨[⟨"t1", "d1"⟩], [], [], [], []⟩
      ⟨"dec1", "m", none, "in", "out", none, ["d1"], [], "t1", []⟩ "tr" 0 1).mpr
      ⟨by decide, by decide, by decide⟩
